import Mathlib

/-!
AI-photographer: the capture session controller of `frontend/src/App.js`.

A shallow embedding of the React component `App` of `src/frontend/src/App.js`.

* The `useState` cells of the component are the fields of `Session`.
* Every handler is a function on `Session`.  A handler reads the cells through the
  closure of the render that created it and writes them through the setters; one
  synchronous run of a handler (the code between two `await`s) is one transition,
  its setter calls applied in program order as one batch.
* A setter only queues its update: the handlers on screen keep the values of the last
  committed render until React renders again.  A `World` therefore holds the current
  cells, the cells of the last committed render (read by the button handlers) and the
  cells of the render whose effect created the running intervals (read by the
  interval callbacks); `Event.render` commits a render.  Functions whose name ends in
  `From` take the closure as an argument of its own; the functions without it are
  the same handlers called from a render of the current state.
* `captureAndAnalyze` is asynchronous: `captureAndAnalyze` below is the part up to
  the `await fetch(...)`, `captureAndAnalyzeResume` the part after it.  The values
  the second part still reads from the closure (`accepted`, `attemptCount`, the
  local `imageData`) travel in a `Pending` record.
* What the browser supplies (the video element, the outcome of the request, the
  loaded camera) is an argument of the event that consumes it.
-/

namespace AIPhotographer

/-! ## Constants -/

/-- Line 4: `const CAPTURE_INTERVAL_MS = 7000;` -/
def CAPTURE_INTERVAL_MS : Nat := 7000

/-- Line 5: `const CAPTURE_INTERVAL_SEC = CAPTURE_INTERVAL_MS / 1000;` -/
def CAPTURE_INTERVAL_SEC : Nat := CAPTURE_INTERVAL_MS / 1000

/-- The DOM constant `HTMLMediaElement.HAVE_ENOUGH_DATA`, read as `video.HAVE_ENOUGH_DATA`
on line 173. -/
def HAVE_ENOUGH_DATA : Nat := 4

/-! ## Data model -/

/-- The `checks` object.  A field the object does not have reads as `undefined`,
which is `none` here; the blur score is a JavaScript number that the controller only
stores and displays, carried as an integer. -/
structure Checks where
  face : Option Bool := none
  eyes : Option Bool := none
  blur : Option Int := none
  deriving DecidableEq, Repr

/-- The state cells of `App` that the capture controller reads or writes
(lines 12-21).  `feedback` can hold `undefined` after `setFeedback(result.feedback)`,
`finalImage` and `selectedCamera` start as `null`. -/
structure Session where
  feedback : Option String
  isAnalyzing : Bool
  accepted : Bool
  checks : Checks
  attemptCount : Nat
  cameraReady : Bool
  countdown : Nat
  finalImage : Option String
  selectedCamera : Option String
  deriving DecidableEq, Repr

/-- The initial values of the `useState` calls, lines 12-21. -/
def initialSession : Session where
  feedback := some "Position yourself in frame..."
  isAnalyzing := false
  accepted := false
  checks := { face := some false, eyes := some false, blur := some 0 }
  attemptCount := 0
  cameraReady := false
  countdown := CAPTURE_INTERVAL_SEC
  finalImage := none
  selectedCamera := none

/-- What `captureAndAnalyze` observes of `videoRef.current` and `canvasRef.current`
(lines 162-198): whether the two elements are mounted, the video's `readyState`,
`videoWidth`, `videoHeight`, and the string `canvas.toDataURL` returns. -/
structure Frame where
  videoPresent : Bool
  canvasPresent : Bool
  readyState : Nat
  videoWidth : Nat
  videoHeight : Nat
  imageData : String
  deriving DecidableEq, Repr

/-- A JavaScript `Error` as the `catch` block reads it: `error.name`, `error.message`. -/
structure JsError where
  name : String
  message : String
  deriving DecidableEq, Repr

/-- The parsed JSON object `result` of line 229, with the properties the controller
reads; an absent property is `none`. -/
structure Result where
  status : Option String := none
  feedback : Option String := none
  message : Option String := none
  checks : Option Checks := none
  accepted : Option Bool := none
  final_image : Option String := none
  deriving DecidableEq, Repr

/-- How the awaited part of lines 211-229 ends: `fetch` rejects (the abort of the
60 s timer, a network failure), or it resolves to a response with its `ok` flag and
`status`, whose `json()` either rejects or yields the parsed object. -/
inductive FetchOutcome where
  | threw (e : JsError)
  | response (ok : Bool) (status : Nat) (body : Except JsError Result)

/-- The closure values and locals an in-flight call of `captureAndAnalyze` still
reads after the `await`: the submitted `imageData` (line 251), the closure's
`accepted` (line 277) and `attemptCount` (line 218). -/
structure Pending where
  imageData : String
  accepted : Bool
  attemptCount : Nat
  deriving DecidableEq, Repr

/-- The request body of lines 216-219. -/
structure Request where
  image : String
  attemptCount : Nat
  deriving DecidableEq, Repr

/-- The body `JSON.stringify` receives on lines 216-219: the image and
`attemptCount + 1` of the closure. -/
def Pending.request (p : Pending) : Request :=
  { image := p.imageData, attemptCount := p.attemptCount + 1 }

/-! ## JavaScript helpers -/

/-- `hay.includes(needle)` on character lists. -/
def includesChars (needle : List Char) : List Char → Bool
  | [] => needle.isPrefixOf []
  | c :: hay => needle.isPrefixOf (c :: hay) || includesChars needle hay

/-- `s.includes(sub)` of JavaScript strings. -/
def includes (s sub : String) : Bool := includesChars sub.data s.data

/-- `x || dflt` for a string-valued property: `undefined` and the empty string are falsy. -/
def strOr (x : Option String) (dflt : String) : String :=
  match x with
  | some s => if s = "" then dflt else s
  | none => dflt

/-- Truthiness of a string-valued property. -/
def truthyStr (x : Option String) : Bool :=
  match x with
  | some s => decide (s ≠ "")
  | none => false

/-- `result.checks || {}`: an object is truthy, an absent property gives `{}`. -/
def checksOr (x : Option Checks) : Checks :=
  match x with
  | some c => c
  | none => {}

/-! ## The handlers -/

/-- The `finally` block of lines 275-281; `accepted` is the value in the closure of
the running call. -/
def finallyBlock (closureAccepted : Bool) (s : Session) : Session :=
  if !closureAccepted then { s with isAnalyzing := false } else s

/-- The `catch` block of lines 265-274. -/
def catchBlock (s : Session) (error : JsError) : Session :=
  if error.name = "AbortError" then
    { s with feedback := some ("Request timeout. OpenAI is taking too long. Retrying in "
        ++ toString CAPTURE_INTERVAL_SEC ++ "s...") }
  else if includes error.message "Failed to fetch" then
    { s with feedback := some "Cannot connect to backend. Is it running on port 5000?" }
  else
    { s with feedback := some ("Error: " ++ error.message) }

/-- The outcome of the synchronous part of `captureAndAnalyze`. -/
inductive Started where
  /-- the guard of lines 150-153 returned -/
  | skipped
  /-- the guard passed and a frame check of lines 165-203 returned before any request -/
  | abandoned (s : Session)
  /-- the guard passed and the request of line 211 was issued -/
  | sent (s : Session) (p : Pending)
  deriving DecidableEq, Repr

/-- The attempt passed the guard of `captureAndAnalyze`. -/
def Started.admitted : Started → Bool
  | .skipped => false
  | .abandoned _ => true
  | .sent _ _ => true

/-- The session after the synchronous part, given the session before it. -/
def Started.session (before : Session) : Started → Session
  | .skipped => before
  | .abandoned s => s
  | .sent s _ => s

/-- Lines 156-158, executed right after the guard: the session is marked as
analyzing and the countdown is put back to the full interval. -/
def markAnalyzing (s : Session) : Session :=
  { s with
    isAnalyzing := true
    feedback := some "Recording audio, please state your preferences for the photo"
    countdown := CAPTURE_INTERVAL_SEC }

/-- Lines 148-221 of `captureAndAnalyze`: the guard, the frame checks, and the
request.  The guard (line 150), the `finally` block (line 277) and the request body
(line 218) read `isAnalyzing`, `accepted` and `attemptCount` from `closure`, the cells
of the render that created the function; the setters act on the current cells `s`. -/
def captureAndAnalyzeFrom (closure s : Session) (v : Frame) : Started :=
  if closure.isAnalyzing || closure.accepted then .skipped
  else
    let s1 := markAnalyzing s
    if !v.videoPresent || !v.canvasPresent then
      .abandoned (finallyBlock closure.accepted
        { s1 with isAnalyzing := false, feedback := some "Camera not ready, please wait..." })
    else if v.readyState ≠ HAVE_ENOUGH_DATA then
      .abandoned (finallyBlock closure.accepted
        { s1 with isAnalyzing := false, feedback := some "Video loading, please wait..." })
    else if v.videoWidth = 0 ∨ v.videoHeight = 0 then
      .abandoned (finallyBlock closure.accepted
        { s1 with isAnalyzing := false, feedback := some "Camera initializing, please wait..." })
    else if v.imageData = "" ∨ v.imageData.length < 1000 then
      .abandoned (finallyBlock closure.accepted
        { s1 with isAnalyzing := false, feedback := some "Failed to capture image, retrying..." })
    else
      .sent s1
        { imageData := v.imageData, accepted := closure.accepted,
          attemptCount := closure.attemptCount }

/-- Lines 148-221 of `captureAndAnalyze`, called from a render of the current state:
the closure is the session `s` itself. -/
def captureAndAnalyze (s : Session) (v : Frame) : Started :=
  if s.isAnalyzing || s.accepted then .skipped
  else
    let s1 := markAnalyzing s
    if !v.videoPresent || !v.canvasPresent then
      .abandoned (finallyBlock s.accepted
        { s1 with isAnalyzing := false, feedback := some "Camera not ready, please wait..." })
    else if v.readyState ≠ HAVE_ENOUGH_DATA then
      .abandoned (finallyBlock s.accepted
        { s1 with isAnalyzing := false, feedback := some "Video loading, please wait..." })
    else if v.videoWidth = 0 ∨ v.videoHeight = 0 then
      .abandoned (finallyBlock s.accepted
        { s1 with isAnalyzing := false, feedback := some "Camera initializing, please wait..." })
    else if v.imageData = "" ∨ v.imageData.length < 1000 then
      .abandoned (finallyBlock s.accepted
        { s1 with isAnalyzing := false, feedback := some "Failed to capture image, retrying..." })
    else
      .sent s1 { imageData := v.imageData, accepted := s.accepted, attemptCount := s.attemptCount }

/-- Lines 232-263: the mapping of the parsed response, before the `finally` block. -/
def onResult (p : Pending) (s : Session) (result : Result) : Session :=
  let s1 := { s with attemptCount := s.attemptCount + 1 }
  if result.status = some "success" then
    let s2 := { s1 with feedback := result.feedback, checks := checksOr result.checks }
    if result.accepted = some true then
      { s2 with
        accepted := true
        feedback := result.feedback
        finalImage :=
          if truthyStr result.final_image then result.final_image else some p.imageData }
    else s2
  else if result.status = some "rejected" then
    { s1 with
      feedback := some (strOr result.message "Checks failed - waiting for next capture...")
      checks := checksOr result.checks }
  else
    { s1 with feedback := some (strOr result.message "Unknown error") }

/-- Lines 223-281 of `captureAndAnalyze`: what runs when the awaited request ends,
on the session `s` current at that moment, for the call whose closure is `p`. -/
def captureAndAnalyzeResume (p : Pending) (s : Session) : FetchOutcome → Session
  | .threw e => finallyBlock p.accepted (catchBlock s e)
  | .response ok status body =>
    if !ok then
      finallyBlock p.accepted
        (catchBlock s { name := "Error", message := "HTTP error! status: " ++ toString status })
    else
      match body with
      | .error e => finallyBlock p.accepted (catchBlock s e)
      | .ok result => finallyBlock p.accepted (onResult p s result)

/-- Lines 318-323 of `manualCapture`: its check reads the closure of the render that
created the button handler. -/
def manualCaptureFrom (closure s : Session) (v : Frame) : Started :=
  if !closure.isAnalyzing && !closure.accepted then captureAndAnalyzeFrom closure s v
  else .skipped

/-- The capture interval of the effect of lines 87-116, whose dependencies are
`[cameraReady, accepted, isAnalyzing]`: the interval exists only if the render that ran
the effect had `cameraReady && !accepted && !isAnalyzing` (line 88), and its callback
(lines 105-110) reads the cells of that render. -/
def captureTimerFrom (closure s : Session) (v : Frame) : Started :=
  if !closure.cameraReady || closure.accepted || closure.isAnalyzing then .skipped
  else if !closure.isAnalyzing && !closure.accepted then captureAndAnalyzeFrom closure s v
  else .skipped

/-- The countdown interval of the same effect, lines 95-102: it exists under the same
condition, and its updater acts on the current countdown. -/
def countdownTimerFrom (closure s : Session) : Session :=
  if !closure.cameraReady || closure.accepted || closure.isAnalyzing then s
  else { s with countdown := if s.countdown ≤ 1 then CAPTURE_INTERVAL_SEC else s.countdown - 1 }

/-- Lines 318-323 of `manualCapture`, called from a render of the current state. -/
def manualCapture (s : Session) (v : Frame) : Started :=
  if !s.isAnalyzing && !s.accepted then captureAndAnalyze s v else .skipped

/-- The capture interval of the effect of lines 87-116, created by a render of the
current state: the interval exists only in a render with
`cameraReady && !accepted && !isAnalyzing` (line 88), and its callback (lines 105-110)
calls `captureAndAnalyze` under its own check. -/
def captureTimer (s : Session) (v : Frame) : Started :=
  if !s.cameraReady || s.accepted || s.isAnalyzing then .skipped
  else if !s.isAnalyzing && !s.accepted then captureAndAnalyze s v
  else .skipped

/-- The countdown interval of the same effect, lines 95-102, created by a render of
the current state. -/
def countdownTimer (s : Session) : Session :=
  if !s.cameraReady || s.accepted || s.isAnalyzing then s
  else { s with countdown := if s.countdown ≤ 1 then CAPTURE_INTERVAL_SEC else s.countdown - 1 }

/-- Lines 297-305 of `reset`: the state writes. -/
def reset (s : Session) : Session :=
  { s with
    accepted := false
    isAnalyzing := false
    feedback := some ("Ready to go again! First capture in "
      ++ toString CAPTURE_INTERVAL_SEC ++ " seconds...")
    attemptCount := 0
    checks := { face := some false, eyes := some false, blur := some 0 }
    finalImage := none
    countdown := CAPTURE_INTERVAL_SEC }

/-- Lines 307-315 of `reset`: `startCamera()` is called exactly when the video element
holds no stream (`videoRef.current && videoRef.current.srcObject` is falsy). -/
def resetRestartsCamera (streamPresent : Bool) : Bool := !streamPresent

/-- The `onloadedmetadata` callback installed by `startCamera`, lines 132-140. -/
def startCameraLoaded (s : Session) (width height : Nat) : Session :=
  { s with
    cameraReady := true
    feedback := some ("Camera ready! Resolution: " ++ toString width ++ "x" ++ toString height
      ++ ". First capture in " ++ toString CAPTURE_INTERVAL_SEC ++ " seconds...") }

/-- The `catch` block of `startCamera`, lines 142-145. -/
def startCameraFailed (s : Session) : Session :=
  { s with feedback := some "Camera access denied. Please allow camera permissions and refresh." }

/-- The synchronous part of `switchCamera`, lines 48-55. -/
def switchCamera (s : Session) (deviceId : String) : Session :=
  { s with selectedCamera := some deviceId, cameraReady := false }

/-- The `onloadedmetadata` callback installed by `switchCamera`, lines 71-78. -/
def switchCameraLoaded (s : Session) (width height : Nat) : Session :=
  { s with
    cameraReady := true
    feedback := some ("Camera ready! Resolution: " ++ toString width ++ "x" ++ toString height) }

/-- The `catch` block of `switchCamera`, lines 80-83. -/
def switchCameraFailed (s : Session) : Session :=
  { s with feedback := some "Failed to switch camera" }

/-! ## Stages

The four stages of the specification, read off the state cells the way the view
does: the final photo is shown when `accepted` (line 400), the analyzing overlay when
`isAnalyzing && !accepted` (line 414), the countdown overlay when
`cameraReady && !isAnalyzing && !accepted` (line 407). -/

/-- The stages of a session. -/
inductive Stage where
  | Initializing
  | Ready
  | Analyzing
  | Accepted
  deriving DecidableEq, Repr

/-- The stage a session is in. -/
def stage (s : Session) : Stage :=
  if s.accepted then .Accepted
  else if s.isAnalyzing then .Analyzing
  else if s.cameraReady then .Ready
  else .Initializing

/-! ## The event system -/

/-- The controller together with the requests that are in flight.  `session` holds
the current cells, with every queued update applied; `rendered` the cells of the last
committed render, which the handlers of the buttons read; `timer` the cells of the
render in which the effect of lines 87-116 last ran, which the interval callbacks
read.  A world written without `rendered` and `timer` is one whose render is up to
date. -/
structure World where
  session : Session
  rendered : Session := session
  timer : Session := session
  inFlight : List Pending
  deriving DecidableEq, Repr

/-- The component after mounting. -/
def initialWorld : World := { session := initialSession, inFlight := [] }

/-- The dependency array of the effect of lines 87-116, line 116. -/
def effectDeps (s : Session) : Bool × Bool × Bool := (s.cameraReady, s.accepted, s.isAnalyzing)

/-- React commits a render of the current cells: the handlers of the buttons now read
them, and the effect of lines 87-116 runs again, replacing the intervals and their
closure, exactly when one of its dependencies differs from the previous render. -/
def render (w : World) : World :=
  { w with
    rendered := w.session
    timer := if effectDeps w.session = effectDeps w.rendered then w.timer else w.session }

/-- What can happen to a mounted component. -/
inductive Event where
  /-- the stream requested by `startCamera` has loaded its metadata -/
  | cameraLoaded (width height : Nat)
  /-- `startCamera` failed -/
  | cameraFailed
  /-- the 1 s countdown interval fires -/
  | countdownTick
  /-- the capture interval fires -/
  | captureTick (v : Frame)
  /-- the user presses "Capture Now" -/
  | manualCapture (v : Frame)
  /-- the request at position `i` of the in-flight list ends with outcome `o` -/
  | fetchDone (i : Nat) (o : FetchOutcome)
  /-- the user picks a camera in the selector -/
  | switchCamera (deviceId : String)
  /-- the stream requested by `switchCamera` has loaded its metadata -/
  | switchLoaded (width height : Nat)
  /-- `switchCamera` failed -/
  | switchFailed
  /-- the user presses "Take Another Photo" -/
  | reset (streamPresent : Bool)
  /-- React commits a render of the current cells -/
  | render

/-- Record the outcome of the synchronous part of a capture attempt. -/
def World.start (w : World) : Started → World
  | .skipped => w
  | .abandoned s => { w with session := s }
  | .sent s p => { w with session := s, inFlight := p :: w.inFlight }

/-- One event.  The interval callbacks read the closure `w.timer`, the handlers of the
buttons the closure `w.rendered`; every setter acts on `w.session`.  The camera
selector is on screen only when the last render had `!accepted`, and it is disabled
when that render had `isAnalyzing` (lines 426-442).  The reset button is on screen when
the last render had `accepted` (lines 426-457); the event is also taken in a state
that is accepted and whose render is still to come. -/
def step (w : World) : Event → World
  | .cameraLoaded width height => { w with session := startCameraLoaded w.session width height }
  | .cameraFailed => { w with session := startCameraFailed w.session }
  | .countdownTick => { w with session := countdownTimerFrom w.timer w.session }
  | .captureTick v => w.start (captureTimerFrom w.timer w.session v)
  | .manualCapture v => w.start (manualCaptureFrom w.rendered w.session v)
  | .fetchDone i o =>
    match w.inFlight.get? i with
    | some p =>
      { w with
        session := captureAndAnalyzeResume p w.session o
        inFlight := w.inFlight.eraseIdx i }
    | none => w
  | .switchCamera deviceId =>
    if w.rendered.accepted || w.rendered.isAnalyzing then w
    else { w with session := switchCamera w.session deviceId }
  | .switchLoaded width height => { w with session := switchCameraLoaded w.session width height }
  | .switchFailed => { w with session := switchCameraFailed w.session }
  | .reset _ =>
    if w.session.accepted || w.rendered.accepted then { w with session := reset w.session }
    else w
  | .render => render w

/-- A sequence of events, from a given world. -/
def run (w : World) (es : List Event) : World := es.foldl step w

/-! ## Complete attempts -/

/-- The frame passes the four checks of lines 165-203. -/
def Frame.ok (v : Frame) : Bool :=
  v.videoPresent && v.canvasPresent && decide (v.readyState = HAVE_ENOUGH_DATA)
    && decide (v.videoWidth ≠ 0) && decide (v.videoHeight ≠ 0)
    && decide (v.imageData ≠ "") && decide (1000 ≤ v.imageData.length)

/-- One call of `captureAndAnalyze` from its guard to its last line, the awaited
request ending with outcome `o`. -/
def attempt (s : Session) (v : Frame) (o : FetchOutcome) : Session :=
  match captureAndAnalyze s v with
  | .skipped => s
  | .abandoned s1 => s1
  | .sent s1 p => captureAndAnalyzeResume p s1 o

/-- Successive calls of `captureAndAnalyze`, each run to its end before the next. -/
def attempts (s : Session) (rs : List (Frame × FetchOutcome)) : Session :=
  rs.foldl (fun t r => attempt t r.1 r.2) s

/-- The request was answered with an ok response whose body parsed: line 233 is reached. -/
def FetchOutcome.parsed : FetchOutcome → Bool
  | .response true _ (.ok _) => true
  | _ => false

/-- The service accepted the photo: a parsed response with status success and a true
acceptance flag (lines 235 and 242). -/
def FetchOutcome.accepts : FetchOutcome → Bool
  | .response true _ (.ok r) => decide (r.status = some "success" ∧ r.accepted = some true)
  | _ => false

/-! ## Sample data -/

/-- A data URL of 1000 characters. -/
def sampleImage : String := String.mk (List.replicate 1000 (Char.ofNat 65))

/-- A frame of a playing 1280x720 stream. -/
def goodFrame : Frame :=
  { videoPresent := true, canvasPresent := true, readyState := 4,
    videoWidth := 1280, videoHeight := 720, imageData := sampleImage }

/-- The video element before any stream has loaded. -/
def blankFrame : Frame :=
  { videoPresent := true, canvasPresent := true, readyState := 0,
    videoWidth := 0, videoHeight := 0, imageData := "data:," }

/-- The session once the camera has loaded at 1280x720. -/
def readySession : Session := startCameraLoaded initialSession 1280 720

/-- The closure of an attempt started from `readySession` with `goodFrame`. -/
def samplePending : Pending := { imageData := sampleImage, accepted := false, attemptCount := 0 }

/-- A reply of the service that accepts the photo and sends no final image. -/
def acceptingResult : Result :=
  { status := some "success"
    feedback := some "Great shot!"
    checks := some { face := some true, eyes := some true, blur := some 80 }
    accepted := some true }

/-- The camera loads, React renders, then the capture timer fires on a playing
stream. -/
def sampleEvents : List Event :=
  [Event.cameraLoaded 1280 720, Event.render, Event.captureTick goodFrame]

/-- The world after `sampleEvents`: one request in flight, the session marked as
analyzing, and the handlers on screen still those of the ready render. -/
def racingWorld : World :=
  { session := markAnalyzing readySession
    rendered := readySession
    timer := readySession
    inFlight := [samplePending] }

/-- The abort raised by the 60 s timer of line 209. -/
def timeoutError : JsError := { name := "AbortError", message := "The user aborted a request." }

/-- The rejection of `fetch` when the service cannot be reached. -/
def unreachableError : JsError := { name := "TypeError", message := "Failed to fetch" }

/-- The rejection of the specification's scenario. -/
def rejectingResult : Result :=
  { status := some "rejected"
    checks := some { face := some true, eyes := some false, blur := some 12 } }

/-- A rejection that carries no checks object. -/
def bareRejection : Result := { status := some "rejected" }

/-- A rejection whose checks object has only the `face` field. -/
def partialRejection : Result :=
  { status := some "rejected", checks := some { face := some true } }

/-- A reply whose status is neither success nor rejected, with a message. -/
def serviceErrorResult : Result :=
  { status := some "error", message := some "No image provided" }

/-- The message of the `catch` block for a timeout (line 269). -/
def timeoutMessage : String := "Request timeout. OpenAI is taking too long. Retrying in 7s..."

/-- The message of the `catch` block for an unreachable service (line 271). -/
def unreachableMessage : String := "Cannot connect to backend. Is it running on port 5000?"

/-- An accepted session: `readySession` after one attempt the service accepted. -/
def acceptedSession : Session :=
  attempt readySession goodFrame (.response true 200 (.ok acceptingResult))

/-! ## The countdown -/

/-- The updater passed to `setCountdown` on lines 96-101: `prev <= 1` wraps to the full
interval, any other value is decremented. -/
def countdownUpdater (prev : Nat) : Nat :=
  if prev ≤ 1 then CAPTURE_INTERVAL_SEC else prev - 1

/-- The countdown of a session is within the interval. -/
def CountdownInv (s : Session) : Prop := s.countdown ≤ CAPTURE_INTERVAL_SEC

/-! ## The older controller, `toshiftintofrontend/src/App.js` -/

namespace Legacy

/-- The state cells of the older `App` (lines 9-15 of
`toshiftintofrontend/src/App.js`); `captureInterval` holds the handle of the running
interval, `null` at first. -/
structure Session where
  feedback : Option String
  isAnalyzing : Bool
  accepted : Bool
  checks : Checks
  attemptCount : Nat
  captureInterval : Option Nat
  cameraReady : Bool
  deriving DecidableEq, Repr

/-- The initial values of the `useState` calls of the older `App`, lines 9-15. -/
def initialSession : Session where
  feedback := some "Position yourself in frame..."
  isAnalyzing := false
  accepted := false
  checks := { face := some false, eyes := some false, blur := some 0 }
  attemptCount := 0
  captureInterval := none
  cameraReady := false

/-- The outcome of the synchronous part of the older `captureAndAnalyze`. -/
inductive Started where
  /-- the guard of line 67 returned -/
  | skipped
  /-- the guard passed and the check of lines 77-81 returned before any request -/
  | abandoned (s : Session)
  /-- the guard passed and the request of line 92 was issued with this image -/
  | sent (s : Session) (imageData : String)
  deriving DecidableEq, Repr

/-- The session after the synchronous part, given the session before it. -/
def Started.session (before : Session) : Started → Session
  | .skipped => before
  | .abandoned s => s
  | .sent s _ => s

/-- Lines 66-92 of the older `captureAndAnalyze`.  The guard reads `isAnalyzing`,
`accepted` and `cameraReady` from `closure`, the render that created the function; the
setters act on the current session `s`.  The button handler belongs to the latest
render; the interval callback of lines 32-42 belongs to the render in which
`cameraReady` or `accepted` last changed. -/
def captureAndAnalyze (closure s : Session) (v : Frame) : Started :=
  if closure.isAnalyzing || closure.accepted || !closure.cameraReady then .skipped
  else
    let s1 := { s with isAnalyzing := true, feedback := some "📸 Analyzing..." }
    if !v.videoPresent || !v.canvasPresent then
      .abandoned { s1 with isAnalyzing := false }
    else
      .sent s1 v.imageData

/-- Lines 160-162 of the older controller: `manualCapture` calls `captureAndAnalyze`. -/
def manualCapture (closure s : Session) (v : Frame) : Started :=
  captureAndAnalyze closure s v

/-- The older session of the render in which the camera became ready (lines 55-58):
the render whose effect created the capture interval of lines 32-42. -/
def readySession : Session :=
  { initialSession with cameraReady := true,
                        feedback := some "Camera ready! Analyzing in 3 seconds..." }

/-- An older session with the camera ready and an analysis outstanding. -/
def analyzingSession : Session :=
  { initialSession with cameraReady := true, isAnalyzing := true,
                        feedback := some "📸 Analyzing..." }

end Legacy

/-! ## Invariants -/

/-- The final image is set exactly when the session is accepted. -/
def ArtifactInv (s : Session) : Prop := s.finalImage.isSome = s.accepted

/-! ## Basic facts about the handlers -/

theorem sampleImage_length : sampleImage.length = 1000 := by
  show (List.replicate 1000 (Char.ofNat 65)).length = 1000
  exact List.length_replicate _ _

theorem sampleImage_ne_empty : sampleImage ≠ "" := by
  intro h
  have h1 := sampleImage_length
  rw [h] at h1
  exact absurd h1 (by decide)

theorem goodFrame_ok : goodFrame.ok = true := by
  have h1 : goodFrame.imageData = sampleImage := rfl
  simp [Frame.ok, h1, sampleImage_length, sampleImage_ne_empty]
  simp [goodFrame, HAVE_ENOUGH_DATA]

/-- The three ways the synchronous part of `captureAndAnalyze` can end. -/
theorem captureAndAnalyze_cases (s : Session) (v : Frame) :
    (captureAndAnalyze s v = .skipped ∧ (s.isAnalyzing = true ∨ s.accepted = true)) ∨
    (s.isAnalyzing = false ∧ s.accepted = false ∧ v.ok = false ∧
      ∃ msg, captureAndAnalyze s v =
        .abandoned { markAnalyzing s with isAnalyzing := false, feedback := some msg }) ∨
    (s.isAnalyzing = false ∧ s.accepted = false ∧ v.ok = true ∧
      captureAndAnalyze s v = .sent (markAnalyzing s)
        { imageData := v.imageData, accepted := false, attemptCount := s.attemptCount }) := by
  unfold captureAndAnalyze
  by_cases hg : (s.isAnalyzing || s.accepted) = true
  · left
    simp only [hg, if_true, true_and]
    simpa using hg
  · right
    have hg2 : s.isAnalyzing = false ∧ s.accepted = false := by simpa using hg
    obtain ⟨ha, hc⟩ := hg2
    rw [if_neg hg]
    simp only [ha, hc, true_and, finallyBlock, Bool.not_false, if_true]
    by_cases h1 : (!v.videoPresent || !v.canvasPresent) = true
    · left
      refine ⟨?_, ⟨_, by rw [if_pos h1]⟩⟩
      simp only [Frame.ok]
      cases hvp : v.videoPresent <;> cases hcp : v.canvasPresent <;> simp_all
    · have h1b : v.videoPresent = true ∧ v.canvasPresent = true := by simpa using h1
      rw [if_neg h1]
      by_cases h2 : v.readyState ≠ HAVE_ENOUGH_DATA
      · left
        refine ⟨?_, ⟨_, by rw [if_pos h2]⟩⟩
        simp [Frame.ok, h2]
      · rw [if_neg h2]
        by_cases h3 : v.videoWidth = 0 ∨ v.videoHeight = 0
        · left
          refine ⟨?_, ⟨_, by rw [if_pos h3]⟩⟩
          simp only [Frame.ok]
          rcases h3 with h3 | h3 <;> simp [h3]
        · rw [if_neg h3]
          by_cases h4 : v.imageData = "" ∨ v.imageData.length < 1000
          · left
            refine ⟨?_, ⟨_, by rw [if_pos h4]⟩⟩
            simp only [Frame.ok]
            rcases h4 with h4 | h4
            · simp [h4]
            · have : ¬ (1000 ≤ v.imageData.length) := by omega
              simp [this]
          · right
            rw [if_neg h4]
            simp only [and_true]
            push_neg at h2 h3 h4
            simp [Frame.ok, h1b.1, h1b.2, h2, h3.1, h3.2, h4.1, h4.2]

theorem captureAndAnalyze_sent (s : Session) (v : Frame)
    (ha : s.isAnalyzing = false) (hc : s.accepted = false) (hv : v.ok = true) :
    captureAndAnalyze s v = .sent (markAnalyzing s)
      { imageData := v.imageData, accepted := false, attemptCount := s.attemptCount } := by
  rcases captureAndAnalyze_cases s v with h | h | h
  · rcases h.2 with h2 | h2 <;> simp_all
  · simp_all
  · exact h.2.2.2

theorem captureAndAnalyze_skipped (s : Session) (v : Frame)
    (h : s.isAnalyzing = true ∨ s.accepted = true) : captureAndAnalyze s v = .skipped := by
  unfold captureAndAnalyze
  rcases h with h | h <;> simp [h]

theorem captureAndAnalyze_admitted (s : Session) (v : Frame) :
    (captureAndAnalyze s v).admitted = true ↔ (s.isAnalyzing = false ∧ s.accepted = false) := by
  rcases captureAndAnalyze_cases s v with h | h | h
  · rw [h.1]
    rcases h.2 with h2 | h2 <;> simp [Started.admitted, h2]
  · obtain ⟨ha, hc, -, msg, hm⟩ := h
    rw [hm]
    simp [Started.admitted, ha, hc]
  · obtain ⟨ha, hc, -, hm⟩ := h
    rw [hm]
    simp [Started.admitted, ha, hc]

theorem captureTimer_eq (s : Session) (v : Frame) :
    captureTimer s v = if s.cameraReady = true then captureAndAnalyze s v else .skipped := by
  unfold captureTimer
  cases hr : s.cameraReady <;> cases ha : s.isAnalyzing <;> cases hc : s.accepted <;>
    simp [captureAndAnalyze_skipped, ha, hc]

theorem manualCapture_eq (s : Session) (v : Frame) :
    manualCapture s v = captureAndAnalyze s v := by
  unfold manualCapture
  cases ha : s.isAnalyzing <;> cases hc : s.accepted <;>
    simp [captureAndAnalyze_skipped, ha, hc]

theorem stage_eq_Ready (s : Session) :
    stage s = .Ready ↔ (s.cameraReady = true ∧ s.isAnalyzing = false ∧ s.accepted = false) := by
  unfold stage
  cases hr : s.cameraReady <;> cases ha : s.isAnalyzing <;> cases hc : s.accepted <;> simp

/-! ## The handlers called from an older render -/

theorem captureAndAnalyze_eq_From (s : Session) (v : Frame) :
    captureAndAnalyze s v = captureAndAnalyzeFrom s s v := rfl

theorem manualCapture_eq_From (s : Session) (v : Frame) :
    manualCapture s v = manualCaptureFrom s s v := rfl

theorem captureTimer_eq_From (s : Session) (v : Frame) :
    captureTimer s v = captureTimerFrom s s v := rfl

theorem countdownTimer_eq_From (s : Session) : countdownTimer s = countdownTimerFrom s s := rfl

/-- The three ways the synchronous part of `captureAndAnalyze` can end, for a call
whose closure is `c` and whose setters act on `s`. -/
theorem captureAndAnalyzeFrom_cases (c s : Session) (v : Frame) :
    (captureAndAnalyzeFrom c s v = .skipped ∧ (c.isAnalyzing = true ∨ c.accepted = true)) ∨
    (c.isAnalyzing = false ∧ c.accepted = false ∧ v.ok = false ∧
      ∃ msg, captureAndAnalyzeFrom c s v =
        .abandoned { markAnalyzing s with isAnalyzing := false, feedback := some msg }) ∨
    (c.isAnalyzing = false ∧ c.accepted = false ∧ v.ok = true ∧
      captureAndAnalyzeFrom c s v = .sent (markAnalyzing s)
        { imageData := v.imageData, accepted := false, attemptCount := c.attemptCount }) := by
  unfold captureAndAnalyzeFrom
  by_cases hg : (c.isAnalyzing || c.accepted) = true
  · left
    simp only [hg, if_true, true_and]
    simpa using hg
  · right
    have hg2 : c.isAnalyzing = false ∧ c.accepted = false := by simpa using hg
    obtain ⟨ha, hc⟩ := hg2
    rw [if_neg hg]
    simp only [ha, hc, true_and, finallyBlock, Bool.not_false, if_true]
    by_cases h1 : (!v.videoPresent || !v.canvasPresent) = true
    · left
      refine ⟨?_, ⟨_, by rw [if_pos h1]⟩⟩
      simp only [Frame.ok]
      cases hvp : v.videoPresent <;> cases hcp : v.canvasPresent <;> simp_all
    · have h1b : v.videoPresent = true ∧ v.canvasPresent = true := by simpa using h1
      rw [if_neg h1]
      by_cases h2 : v.readyState ≠ HAVE_ENOUGH_DATA
      · left
        refine ⟨?_, ⟨_, by rw [if_pos h2]⟩⟩
        simp [Frame.ok, h2]
      · rw [if_neg h2]
        by_cases h3 : v.videoWidth = 0 ∨ v.videoHeight = 0
        · left
          refine ⟨?_, ⟨_, by rw [if_pos h3]⟩⟩
          simp only [Frame.ok]
          rcases h3 with h3 | h3 <;> simp [h3]
        · rw [if_neg h3]
          by_cases h4 : v.imageData = "" ∨ v.imageData.length < 1000
          · left
            refine ⟨?_, ⟨_, by rw [if_pos h4]⟩⟩
            simp only [Frame.ok]
            rcases h4 with h4 | h4
            · simp [h4]
            · have : ¬ (1000 ≤ v.imageData.length) := by omega
              simp [this]
          · right
            rw [if_neg h4]
            simp only [and_true]
            push_neg at h2 h3 h4
            simp [Frame.ok, h1b.1, h1b.2, h2, h3.1, h3.2, h4.1, h4.2]

theorem captureAndAnalyzeFrom_sent (c s : Session) (v : Frame)
    (ha : c.isAnalyzing = false) (hc : c.accepted = false) (hv : v.ok = true) :
    captureAndAnalyzeFrom c s v = .sent (markAnalyzing s)
      { imageData := v.imageData, accepted := false, attemptCount := c.attemptCount } := by
  rcases captureAndAnalyzeFrom_cases c s v with h | h | h
  · rcases h.2 with h2 | h2 <;> simp_all
  · simp_all
  · exact h.2.2.2

theorem captureAndAnalyzeFrom_skipped (c s : Session) (v : Frame)
    (h : c.isAnalyzing = true ∨ c.accepted = true) :
    captureAndAnalyzeFrom c s v = .skipped := by
  unfold captureAndAnalyzeFrom
  rcases h with h | h <;> simp [h]

theorem captureTimerFrom_eq (c s : Session) (v : Frame) :
    captureTimerFrom c s v =
      if c.cameraReady = true then captureAndAnalyzeFrom c s v else .skipped := by
  unfold captureTimerFrom
  cases hr : c.cameraReady <;> cases ha : c.isAnalyzing <;> cases hc : c.accepted <;>
    simp [captureAndAnalyzeFrom_skipped, ha, hc]

theorem manualCaptureFrom_eq (c s : Session) (v : Frame) :
    manualCaptureFrom c s v = captureAndAnalyzeFrom c s v := by
  unfold manualCaptureFrom
  cases ha : c.isAnalyzing <;> cases hc : c.accepted <;>
    simp [captureAndAnalyzeFrom_skipped, ha, hc]

/-- The session a capture attempt leaves behind, whatever closure it ran with: the
session before, the session of an attempt ended by a frame check, or the session
marked as analyzing. -/
theorem start_session_cases (w : World) (c : Session) (v : Frame) :
    (w.start (captureAndAnalyzeFrom c w.session v)).session = w.session ∨
      (∃ msg, (w.start (captureAndAnalyzeFrom c w.session v)).session =
        { markAnalyzing w.session with isAnalyzing := false, feedback := some msg }) ∨
      (w.start (captureAndAnalyzeFrom c w.session v)).session = markAnalyzing w.session := by
  rcases captureAndAnalyzeFrom_cases c w.session v with h | h | h
  · left
    rw [h.1]
    rfl
  · obtain ⟨-, -, -, msg, hm⟩ := h
    right; left
    exact ⟨msg, by rw [hm]; rfl⟩
  · right; right
    rw [h.2.2.2]
    rfl

/-- Every event leaves the session as it is, or applies one handler batch to it. -/
theorem countdownTimerFrom_cases (c s : Session) :
    countdownTimerFrom c s = s ∨
      countdownTimerFrom c s = { s with countdown := countdownUpdater s.countdown } := by
  unfold countdownTimerFrom
  split
  · left; rfl
  · right; rfl

/-- An invariant of `step` that holds initially holds after every run. -/
theorem run_induction (P : World → Prop) (hstep : ∀ w e, P w → P (step w e)) :
    ∀ (es : List Event) (w : World), P w → P (run w es) := by
  intro es
  induction es with
  | nil => intro w hw; exact hw
  | cons e es ih =>
    intro w hw
    show P (run (step w e) es)
    exact ih _ (hstep w e hw)

/-- The capture timer admits exactly in a ready session. -/
theorem captureTimer_admitted (s : Session) (v : Frame) :
    (captureTimer s v).admitted = true ↔
      (s.cameraReady = true ∧ s.isAnalyzing = false ∧ s.accepted = false) := by
  rw [captureTimer_eq]
  by_cases hr : s.cameraReady = true
  · rw [if_pos hr, captureAndAnalyze_admitted]
    simp [hr]
  · rw [if_neg hr]
    simp [Started.admitted, hr]

/-! ## C1: the admission rule -/

/-- C1 (counterexample): on the freshly mounted component, whose camera is not ready
(stage Initializing), a press of "Capture Now" passes the guard of `captureAndAnalyze`:
the attempt is admitted although the session is not Ready. -/
theorem C1_manual_admitted_while_initializing :
    (manualCapture initialSession blankFrame).admitted = true ∧
      initialSession.cameraReady = false ∧
      stage initialSession = Stage.Initializing ∧
      ¬ ((manualCapture initialSession blankFrame).admitted = true ↔
          (initialSession.cameraReady = true ∧ initialSession.isAnalyzing = false ∧
            initialSession.accepted = false)) := by
  have h : (manualCapture initialSession blankFrame).admitted = true := rfl
  refine ⟨h, rfl, rfl, ?_⟩
  intro hiff
  have h2 := (hiff.mp h).1
  exact absurd h2 (by decide)

/-- C1 (amended): for every session state and every frame, with the handlers of a
render of that state (closure and current cells coincide): the timer path admits a
capture attempt iff `cameraReady` is true, `isAnalyzing` is false and `accepted` is
false, that is iff the stage is Ready; the manual path admits iff `isAnalyzing` is
false and `accepted` is false, whatever `cameraReady` is; on either path an attempt
that issues its request leaves the session marked as analyzing; and in stage
Initializing (`cameraReady`, `isAnalyzing` and `accepted` all false) the timer admits no
attempt while a manual capture is admitted. -/
theorem C1_admission (s : Session) (v : Frame) :
    ((captureTimer s v).admitted = true ↔
        (s.cameraReady = true ∧ s.isAnalyzing = false ∧ s.accepted = false)) ∧
      ((captureTimer s v).admitted = true ↔ stage s = Stage.Ready) ∧
      ((manualCapture s v).admitted = true ↔ (s.isAnalyzing = false ∧ s.accepted = false)) ∧
      (∀ s1 p, captureTimer s v = Started.sent s1 p → s1.isAnalyzing = true) ∧
      (∀ s1 p, manualCapture s v = Started.sent s1 p → s1.isAnalyzing = true) ∧
      (stage s = Stage.Initializing ↔
        (s.cameraReady = false ∧ s.isAnalyzing = false ∧ s.accepted = false)) ∧
      (stage s = Stage.Initializing →
        (manualCapture s v).admitted = true ∧ (captureTimer s v).admitted = false) ∧
      (captureTimer s v = captureTimerFrom s s v ∧ manualCapture s v = manualCaptureFrom s s v) := by
  have hsent : ∀ s1 p, captureAndAnalyze s v = Started.sent s1 p → s1.isAnalyzing = true := by
    intro s1 p h
    rcases captureAndAnalyze_cases s v with c | c | c
    · rw [c.1] at h; cases h
    · obtain ⟨-, -, -, msg, hm⟩ := c
      rw [hm] at h; cases h
    · rw [c.2.2.2] at h
      cases h
      rfl
  have htimer : (captureTimer s v).admitted = true ↔
      (s.cameraReady = true ∧ s.isAnalyzing = false ∧ s.accepted = false) := by
    rw [captureTimer_eq]
    by_cases hr : s.cameraReady = true
    · rw [if_pos hr, captureAndAnalyze_admitted]
      simp [hr]
    · rw [if_neg hr]
      simp [Started.admitted, hr]
  have hinit : stage s = Stage.Initializing ↔
      (s.cameraReady = false ∧ s.isAnalyzing = false ∧ s.accepted = false) := by
    unfold stage
    cases hr : s.cameraReady <;> cases ha : s.isAnalyzing <;> cases hc : s.accepted <;> simp
  have hman : (manualCapture s v).admitted = true ↔
      (s.isAnalyzing = false ∧ s.accepted = false) := by
    rw [manualCapture_eq, captureAndAnalyze_admitted]
  refine ⟨htimer, ?_, hman, ?_, ?_, hinit, ?_, ⟨rfl, rfl⟩⟩
  rotate_left 3
  · intro hst
    obtain ⟨hr, ha, hc⟩ := hinit.mp hst
    refine ⟨hman.mpr ⟨ha, hc⟩, ?_⟩
    cases hadm : (captureTimer s v).admitted
    · rfl
    · have := (htimer.mp hadm).1
      rw [hr] at this
      cases this
  · rw [htimer, stage_eq_Ready]
  · intro s1 p h
    rw [captureTimer_eq] at h
    by_cases hr : s.cameraReady = true
    · rw [if_pos hr] at h
      exact hsent s1 p h
    · rw [if_neg hr] at h
      cases h
  · intro s1 p h
    rw [manualCapture_eq] at h
    exact hsent s1 p h

/-! ## C2: requests in flight -/

theorem run_append_one (w : World) (es : List Event) (e : Event) :
    run w (es ++ [e]) = step (run w es) e := by
  simp [run, List.foldl_append]

/-- The capture interval fires with a closure that is ready and a good frame: the
request is issued, whatever the current cells are. -/
theorem step_captureTick_sent (w : World) (v : Frame) (hr : w.timer.cameraReady = true)
    (ha : w.timer.isAnalyzing = false) (hc : w.timer.accepted = false) (hv : v.ok = true) :
    step w (Event.captureTick v) =
      { w with
        session := markAnalyzing w.session
        inFlight := { imageData := v.imageData, accepted := false,
                      attemptCount := w.timer.attemptCount } :: w.inFlight } := by
  show w.start (captureTimerFrom w.timer w.session v) = _
  rw [captureTimerFrom_eq, if_pos hr, captureAndAnalyzeFrom_sent _ _ _ ha hc hv]
  rfl

/-- "Capture Now" is pressed on a render that is neither analyzing nor accepted, with
a good frame: the request is issued, whatever the current cells are. -/
theorem step_manualCapture_sent (w : World) (v : Frame)
    (ha : w.rendered.isAnalyzing = false) (hc : w.rendered.accepted = false)
    (hv : v.ok = true) :
    step w (Event.manualCapture v) =
      { w with
        session := markAnalyzing w.session
        inFlight := { imageData := v.imageData, accepted := false,
                      attemptCount := w.rendered.attemptCount } :: w.inFlight } := by
  show w.start (manualCaptureFrom w.rendered w.session v) = _
  rw [manualCaptureFrom_eq, captureAndAnalyzeFrom_sent _ _ _ ha hc hv]
  rfl

theorem run_sampleEvents : run initialWorld sampleEvents = racingWorld := by
  have h1 : step initialWorld (Event.cameraLoaded 1280 720) =
      { initialWorld with session := readySession } := rfl
  have h2 : step { initialWorld with session := readySession } Event.render =
      { session := readySession, inFlight := [] } := rfl
  have h3 : step { session := readySession, inFlight := [] } (Event.captureTick goodFrame)
      = racingWorld :=
    (step_captureTick_sent { session := readySession, inFlight := [] } goodFrame
      rfl rfl rfl goodFrame_ok).trans rfl
  unfold run sampleEvents
  simp only [List.foldl]
  rw [h1, h2, h3]

theorem step_racingWorld_manualCapture :
    step racingWorld (Event.manualCapture goodFrame) =
      { racingWorld with
        session := markAnalyzing (markAnalyzing readySession)
        inFlight := [samplePending, samplePending] } :=
  (step_manualCapture_sent racingWorld goodFrame rfl rfl goodFrame_ok).trans rfl

/-- C2 (the code at the failing input): the camera loads, React renders, the capture
interval fires on a playing stream: one request is in flight and `isAnalyzing` is true
in the current cells, but the handlers on screen are still those of the ready render,
with `isAnalyzing` false.  A press of "Capture Now" before the next render passes the
guards of `manualCapture` and `captureAndAnalyze` and issues a second request: two
requests are in flight. -/
theorem C2_two_requests_in_flight :
    run initialWorld sampleEvents = racingWorld ∧
      racingWorld.inFlight.length = 1 ∧
      racingWorld.session.isAnalyzing = true ∧
      racingWorld.rendered.isAnalyzing = false ∧
      (run initialWorld (sampleEvents ++ [Event.manualCapture goodFrame])).inFlight
        = [samplePending, samplePending] ∧
      (run initialWorld (sampleEvents ++ [Event.manualCapture goodFrame])).inFlight.length
        = 2 := by
  have hrun : run initialWorld (sampleEvents ++ [Event.manualCapture goodFrame]) =
      step racingWorld (Event.manualCapture goodFrame) := by
    rw [run_append_one, run_sampleEvents]
  refine ⟨run_sampleEvents, rfl, rfl, rfl, ?_, ?_⟩
  · rw [hrun, step_racingWorld_manualCapture]
  · rw [hrun, step_racingWorld_manualCapture]
    rfl

/-! ## C3: the final image and the accepted flag -/

theorem ArtifactInv_finallyBlock (b : Bool) (s : Session) (h : ArtifactInv s) :
    ArtifactInv (finallyBlock b s) := by
  unfold finallyBlock
  split
  · exact h
  · exact h

theorem ArtifactInv_catchBlock (s : Session) (e : JsError) (h : ArtifactInv s) :
    ArtifactInv (catchBlock s e) := by
  unfold catchBlock
  split
  · exact h
  · split
    · exact h
    · exact h

theorem ArtifactInv_onResult (p : Pending) (s : Session) (r : Result) (h : ArtifactInv s) :
    ArtifactInv (onResult p s r) := by
  unfold onResult
  simp only
  split
  · split
    · show Option.isSome (if truthyStr r.final_image = true then r.final_image
          else some p.imageData) = true
      split
      · rename_i ht
        cases hf : r.final_image with
        | none => rw [hf] at ht; simp [truthyStr] at ht
        | some img => rfl
      · rfl
    · exact h
  · split
    · exact h
    · exact h

theorem ArtifactInv_resume (p : Pending) (s : Session) (o : FetchOutcome) (h : ArtifactInv s) :
    ArtifactInv (captureAndAnalyzeResume p s o) := by
  cases o with
  | threw e => exact ArtifactInv_finallyBlock _ _ (ArtifactInv_catchBlock _ _ h)
  | response ok status body =>
    simp only [captureAndAnalyzeResume]
    split
    · exact ArtifactInv_finallyBlock _ _ (ArtifactInv_catchBlock _ _ h)
    · cases body with
      | error e => exact ArtifactInv_finallyBlock _ _ (ArtifactInv_catchBlock _ _ h)
      | ok r => exact ArtifactInv_finallyBlock _ _ (ArtifactInv_onResult _ _ _ h)

theorem ArtifactInv_start (w : World) (c : Session) (v : Frame) (h : ArtifactInv w.session) :
    ArtifactInv (w.start (captureAndAnalyzeFrom c w.session v)).session := by
  rcases start_session_cases w c v with h1 | ⟨msg, h1⟩ | h1
  · rw [h1]
    exact h
  · rw [h1]
    exact h
  · rw [h1]
    exact h

theorem ArtifactInv_step (w : World) (e : Event) (h : ArtifactInv w.session) :
    ArtifactInv (step w e).session := by
  cases e with
  | cameraLoaded width height => exact h
  | cameraFailed => exact h
  | countdownTick =>
    show ArtifactInv (countdownTimerFrom w.timer w.session)
    rcases countdownTimerFrom_cases w.timer w.session with h1 | h1
    · rw [h1]
      exact h
    · rw [h1]
      exact h
  | captureTick v =>
    show ArtifactInv (w.start (captureTimerFrom w.timer w.session v)).session
    rw [captureTimerFrom_eq]
    split
    · exact ArtifactInv_start w _ v h
    · exact h
  | manualCapture v =>
    show ArtifactInv (w.start (manualCaptureFrom w.rendered w.session v)).session
    rw [manualCaptureFrom_eq]
    exact ArtifactInv_start w _ v h
  | fetchDone i o =>
    simp only [step]
    split
    · exact ArtifactInv_resume _ _ _ h
    · exact h
  | switchCamera deviceId =>
    simp only [step]
    split
    · exact h
    · exact h
  | switchLoaded width height => exact h
  | switchFailed => exact h
  | reset streamPresent =>
    simp only [step]
    split
    · rfl
    · exact h
  | render => exact h

/-- C3: in every state reachable from the mounted component by the controller's
events (admission by timer or button, completion of a request with any payload or
error, reset, camera switch, camera and countdown events), `finalImage` is non-null if
and only if `accepted` is true. -/
theorem C3_final_image_iff_accepted (es : List Event) :
    (run initialWorld es).session.finalImage ≠ none ↔
      (run initialWorld es).session.accepted = true := by
  have h := run_induction (fun w => ArtifactInv w.session) ArtifactInv_step es initialWorld rfl
  simp only [ArtifactInv] at h
  rw [← h, Option.isSome_iff_ne_none]

/-! ## C4: the attempt counter -/

theorem finallyBlock_attemptCount (b : Bool) (s : Session) :
    (finallyBlock b s).attemptCount = s.attemptCount := by
  unfold finallyBlock
  split <;> rfl

theorem catchBlock_attemptCount (s : Session) (e : JsError) :
    (catchBlock s e).attemptCount = s.attemptCount := by
  unfold catchBlock
  split
  · rfl
  · split <;> rfl

theorem onResult_attemptCount (p : Pending) (s : Session) (r : Result) :
    (onResult p s r).attemptCount = s.attemptCount + 1 := by
  unfold onResult
  simp only
  split
  · split <;> rfl
  · split <;> rfl

theorem resume_attemptCount (p : Pending) (s : Session) (o : FetchOutcome) :
    (captureAndAnalyzeResume p s o).attemptCount =
      s.attemptCount + (if o.parsed = true then 1 else 0) := by
  cases o with
  | threw e =>
    simp [captureAndAnalyzeResume, FetchOutcome.parsed, finallyBlock_attemptCount,
      catchBlock_attemptCount]
  | response ok status body =>
    cases ok with
    | false =>
      simp [captureAndAnalyzeResume, FetchOutcome.parsed, finallyBlock_attemptCount,
        catchBlock_attemptCount]
    | true =>
      cases body with
      | error e =>
        simp [captureAndAnalyzeResume, FetchOutcome.parsed, finallyBlock_attemptCount,
          catchBlock_attemptCount]
      | ok r =>
        simp [captureAndAnalyzeResume, FetchOutcome.parsed, finallyBlock_attemptCount,
          onResult_attemptCount]

theorem finallyBlock_false (s : Session) :
    finallyBlock false s = { s with isAnalyzing := false } := rfl

theorem catchBlock_accepted (s : Session) (e : JsError) :
    (catchBlock s e).accepted = s.accepted := by
  unfold catchBlock
  split
  · rfl
  · split <;> rfl

theorem onResult_accepted (p : Pending) (s : Session) (r : Result) :
    (onResult p s r).accepted =
      (decide (r.status = some "success" ∧ r.accepted = some true) || s.accepted) := by
  unfold onResult
  simp only
  split
  · rename_i h1
    split
    · rename_i h2
      simp [h1, h2]
    · rename_i h2
      simp [h1, h2]
  · rename_i h1
    split <;> simp [h1]

/-- A call whose closure holds `accepted = false` ends with `isAnalyzing` false. -/
theorem resume_isAnalyzing (p : Pending) (s : Session) (o : FetchOutcome)
    (hp : p.accepted = false) : (captureAndAnalyzeResume p s o).isAnalyzing = false := by
  cases o with
  | threw e => simp [captureAndAnalyzeResume, hp, finallyBlock_false]
  | response ok status body =>
    cases ok with
    | false => simp [captureAndAnalyzeResume, hp, finallyBlock_false]
    | true =>
      cases body with
      | error e => simp [captureAndAnalyzeResume, hp, finallyBlock_false]
      | ok r => simp [captureAndAnalyzeResume, hp, finallyBlock_false]

theorem resume_accepted (p : Pending) (s : Session) (o : FetchOutcome)
    (hp : p.accepted = false) :
    (captureAndAnalyzeResume p s o).accepted = (o.accepts || s.accepted) := by
  cases o with
  | threw e =>
    simp [captureAndAnalyzeResume, hp, finallyBlock_false, catchBlock_accepted,
      FetchOutcome.accepts]
  | response ok status body =>
    cases ok with
    | false =>
      simp [captureAndAnalyzeResume, hp, finallyBlock_false, catchBlock_accepted,
        FetchOutcome.accepts]
    | true =>
      cases body with
      | error e =>
        simp [captureAndAnalyzeResume, hp, finallyBlock_false, catchBlock_accepted,
          FetchOutcome.accepts]
      | ok r =>
        simp [captureAndAnalyzeResume, hp, finallyBlock_false, onResult_accepted,
          FetchOutcome.accepts]

/-- An attempt on a session that is neither analyzing nor accepted, with a good frame,
issues its request and runs the second part on the session marked as analyzing. -/
theorem attempt_of_ready (s : Session) (v : Frame) (o : FetchOutcome)
    (ha : s.isAnalyzing = false) (hc : s.accepted = false) (hv : v.ok = true) :
    attempt s v o = captureAndAnalyzeResume
      { imageData := v.imageData, accepted := false, attemptCount := s.attemptCount }
      (markAnalyzing s) o := by
  unfold attempt
  rw [captureAndAnalyze_sent s v ha hc hv]

theorem attempts_nonaccepting (front : List (Frame × FetchOutcome)) :
    ∀ s : Session, s.isAnalyzing = false → s.accepted = false →
      (∀ r ∈ front, r.1.ok = true ∧ r.2.accepts = false) →
      (attempts s front).isAnalyzing = false ∧ (attempts s front).accepted = false ∧
        (attempts s front).attemptCount =
          s.attemptCount + front.countP (fun r => r.2.parsed) := by
  induction front with
  | nil =>
    intro s ha hc _
    exact ⟨ha, hc, by simp [attempts]⟩
  | cons r rest ih =>
    intro s ha hc hall
    have hr := hall r (List.mem_cons_self _ _)
    have hstep := attempt_of_ready s r.1 r.2 ha hc hr.1
    have h1 : (attempt s r.1 r.2).isAnalyzing = false := by
      rw [hstep]; exact resume_isAnalyzing _ _ _ rfl
    have h2 : (attempt s r.1 r.2).accepted = false := by
      rw [hstep, resume_accepted _ _ _ rfl, hr.2]
      exact hc
    have h3 : (attempt s r.1 r.2).attemptCount =
        s.attemptCount + (if r.2.parsed = true then 1 else 0) := by
      rw [hstep, resume_attemptCount]
      rfl
    have hrest := ih (attempt s r.1 r.2) h1 h2
      (fun x hx => hall x (List.mem_cons_of_mem _ hx))
    have hfold : attempts s (r :: rest) = attempts (attempt s r.1 r.2) rest := rfl
    rw [hfold]
    refine ⟨hrest.1, hrest.2.1, ?_⟩
    rw [hrest.2.2, h3, List.countP_cons]
    omega

theorem attempts_append (s : Session) (xs ys : List (Frame × FetchOutcome)) :
    attempts s (xs ++ ys) = attempts (attempts s xs) ys := by
  simp [attempts, List.foldl_append]

/-- C4 (counterexample): three attempts in a row from the ready session, each admitted
with a good frame and each run to the end of its remote call, ending in a timeout, an
unreachable service and a non-OK HTTP status, leave `attemptCount` at 0, not at 3. -/
theorem C4_transport_errors_not_counted :
    readySession.attemptCount = 0 ∧
      (attempts readySession
        [(goodFrame, FetchOutcome.threw timeoutError),
         (goodFrame, FetchOutcome.threw unreachableError),
         (goodFrame, FetchOutcome.response false 500 (Except.ok rejectingResult))]).attemptCount
        = 0 := by
  refine ⟨rfl, ?_⟩
  have h := attempts_nonaccepting
    [(goodFrame, FetchOutcome.threw timeoutError),
     (goodFrame, FetchOutcome.threw unreachableError),
     (goodFrame, FetchOutcome.response false 500 (Except.ok rejectingResult))]
    readySession rfl rfl
    (by
      intro r hr
      simp only [List.mem_cons, List.mem_singleton, List.not_mem_nil, or_false] at hr
      rcases hr with hr | hr | hr <;> subst hr <;> exact ⟨goodFrame_ok, rfl⟩)
  rw [h.2.2]
  rfl

/-- C4 (amended): from a session that is neither analyzing nor accepted, after any
sequence of attempts that were each admitted with a good frame and ran to the end of the
remote call (an accepting outcome can only be the last one, acceptance being terminal),
`attemptCount` has grown by the number of attempts whose response was received with an
ok status and parsed: accepted, rejected and service-error outcomes add exactly 1 each,
the three transport errors (timeout, unreachable service, non-OK status) add nothing.
Frame-not-ready attempts and dropped attempts do not change `attemptCount`. -/
theorem C4_attempt_count :
    (∀ (s : Session) (front : List (Frame × FetchOutcome)) (last : Option (Frame × FetchOutcome)),
        s.isAnalyzing = false → s.accepted = false →
        (∀ r ∈ front, r.1.ok = true ∧ r.2.accepts = false) →
        (∀ r ∈ last, r.1.ok = true) →
        (attempts s (front ++ last.toList)).attemptCount =
          s.attemptCount + (front ++ last.toList).countP (fun r => r.2.parsed)) ∧
      (∀ (s : Session) (v : Frame) (o : FetchOutcome), v.ok = false →
        (attempt s v o).attemptCount = s.attemptCount) ∧
      (∀ (s : Session) (v : Frame) (o : FetchOutcome),
        (s.isAnalyzing = true ∨ s.accepted = true) → attempt s v o = s) := by
  refine ⟨?_, ?_, ?_⟩
  · intro s front last ha hc hfront hlast
    have hf := attempts_nonaccepting front s ha hc hfront
    rw [attempts_append, List.countP_append]
    cases last with
    | none =>
      simp only [Option.toList, attempts, List.foldl, List.countP_nil]
      exact hf.2.2
    | some r =>
      have hr := hlast r rfl
      have hstep := attempt_of_ready (attempts s front) r.1 r.2 hf.1 hf.2.1 hr
      have hone : attempts (attempts s front) [r] = attempt (attempts s front) r.1 r.2 := rfl
      simp only [Option.toList]
      rw [hone, hstep, resume_attemptCount]
      show (attempts s front).attemptCount + _ = _
      rw [hf.2.2, List.countP_cons, List.countP_nil]
      omega
  · intro s v o hv
    unfold attempt
    rcases captureAndAnalyze_cases s v with c | c | c
    · rw [c.1]
    · obtain ⟨-, -, -, msg, hm⟩ := c
      rw [hm]
      rfl
    · rw [hv] at c
      exact absurd c.2.2.1 (by decide)
  · intro s v o h
    unfold attempt
    rw [captureAndAnalyze_skipped s v h]

/-- C4 (witness): from the ready session, a timeout, then a rejection, then an
acceptance: three admitted attempts, and `attemptCount` ends at 2. -/
theorem C4_attempt_count_witness :
    (attempts readySession
      ([(goodFrame, FetchOutcome.threw timeoutError),
        (goodFrame, FetchOutcome.response true 200 (Except.ok rejectingResult))] ++
       (some (goodFrame, FetchOutcome.response true 200 (Except.ok acceptingResult))).toList)
      ).attemptCount = 2 := by
  have h := C4_attempt_count.1 readySession
    [(goodFrame, FetchOutcome.threw timeoutError),
     (goodFrame, FetchOutcome.response true 200 (Except.ok rejectingResult))]
    (some (goodFrame, FetchOutcome.response true 200 (Except.ok acceptingResult)))
    rfl rfl
    (by
      intro r hr
      simp only [List.mem_cons, List.mem_singleton, List.not_mem_nil, or_false] at hr
      rcases hr with hr | hr <;> subst hr <;> exact ⟨goodFrame_ok, by decide⟩)
    (by
      intro r hr
      cases hr
      exact goodFrame_ok)
  rw [h]
  rfl

/-! ## C5, C6: reset -/

/-- What a request that was issued knows about the call that issued it. -/
theorem sent_inv (s0 : Session) (v : Frame) (s1 : Session) (p : Pending)
    (h : captureAndAnalyze s0 v = Started.sent s1 p) :
    s1 = markAnalyzing s0 ∧
      p = { imageData := v.imageData, accepted := false, attemptCount := s0.attemptCount } ∧
      s0.isAnalyzing = false ∧ s0.accepted = false ∧ v.ok = true := by
  rcases captureAndAnalyze_cases s0 v with c | c | c
  · rw [c.1] at h; cases h
  · obtain ⟨-, -, -, msg, hm⟩ := c
    rw [hm] at h; cases h
  · obtain ⟨ha, hc, hv, hm⟩ := c
    rw [hm] at h
    cases h
    exact ⟨rfl, rfl, ha, hc, hv⟩

theorem step_reset_session (w : World) (streamPresent : Bool)
    (h : w.session.accepted = true) :
    (step w (Event.reset streamPresent)).session = reset w.session := by
  have hc : (w.session.accepted || w.rendered.accepted) = true := by
    rw [h]
    rfl
  simp only [step]
  rw [if_pos hc]

theorem reset_cameraReady (s : Session) : (reset s).cameraReady = s.cameraReady := rfl

theorem stage_reset (s : Session) :
    stage (reset s) = if s.cameraReady = true then Stage.Ready else Stage.Initializing := rfl

theorem acceptedSession_eq : acceptedSession =
    { feedback := some "Great shot!"
      isAnalyzing := false
      accepted := true
      checks := { face := some true, eyes := some true, blur := some 80 }
      attemptCount := 1
      cameraReady := true
      countdown := 7
      finalImage := some sampleImage
      selectedCamera := none } := by
  unfold acceptedSession
  rw [attempt_of_ready readySession goodFrame _ rfl rfl goodFrame_ok]
  rfl

/-- C5: for every state in which `accepted` is true, pressing "Take Another Photo"
(with or without a stream left in the video element) gives a session with `accepted`
false and `isAnalyzing` false, so in stage Ready or Initializing, with `finalImage`
null, `checks` equal to face false, eyes false, blur 0, `attemptCount` 0, and the
countdown at the full interval of 7 seconds. -/
theorem C5_reset_from_accepted (w : World) (streamPresent : Bool)
    (h : w.session.accepted = true) :
    (step w (Event.reset streamPresent)).session.accepted = false ∧
      (step w (Event.reset streamPresent)).session.isAnalyzing = false ∧
      (stage (step w (Event.reset streamPresent)).session = Stage.Ready ∨
        stage (step w (Event.reset streamPresent)).session = Stage.Initializing) ∧
      (step w (Event.reset streamPresent)).session.finalImage = none ∧
      (step w (Event.reset streamPresent)).session.checks =
        { face := some false, eyes := some false, blur := some 0 } ∧
      (step w (Event.reset streamPresent)).session.attemptCount = 0 ∧
      (step w (Event.reset streamPresent)).session.countdown = CAPTURE_INTERVAL_SEC ∧
      CAPTURE_INTERVAL_SEC = 7 := by
  rw [step_reset_session w streamPresent h]
  refine ⟨rfl, rfl, ?_, rfl, rfl, rfl, rfl, rfl⟩
  rw [stage_reset]
  cases hr : w.session.cameraReady
  · right
    rfl
  · left
    rfl

/-- C5 (witness): reset of the accepted sample session. -/
theorem C5_reset_from_accepted_witness :
    acceptedSession.accepted = true ∧ acceptedSession.attemptCount = 1 ∧
      (step { session := acceptedSession, inFlight := [] } (Event.reset true)).session.attemptCount
        = 0 ∧
      (step { session := acceptedSession, inFlight := [] } (Event.reset true)).session.finalImage
        = none :=
  have hacc : acceptedSession.accepted = true := by rw [acceptedSession_eq]
  have h := C5_reset_from_accepted { session := acceptedSession, inFlight := [] } true hacc
  ⟨hacc, by rw [acceptedSession_eq], h.2.2.2.2.2.1, h.2.2.2.1⟩

/-- C6 (the code at the failing input): the accepted sample session has `cameraReady`
true; when "Take Another Photo" is pressed while the video element holds no stream,
`reset` calls `startCamera`, but `cameraReady` stays true and the stage after the reset
is Ready, not Initializing. -/
theorem C6_reset_keeps_cameraReady :
    acceptedSession.accepted = true ∧
      resetRestartsCamera false = true ∧
      (step { session := acceptedSession, inFlight := [] } (Event.reset false)).session.cameraReady
        = true ∧
      stage (step { session := acceptedSession, inFlight := [] } (Event.reset false)).session
        = Stage.Ready := by
  have hacc : acceptedSession.accepted = true := by rw [acceptedSession_eq]
  have hcam : acceptedSession.cameraReady = true := by rw [acceptedSession_eq]
  refine ⟨hacc, rfl, ?_, ?_⟩
  · rw [step_reset_session { session := acceptedSession, inFlight := [] } false hacc, reset_cameraReady]
    exact hcam
  · rw [step_reset_session { session := acceptedSession, inFlight := [] } false hacc, stage_reset]
    exact if_pos hcam

/-! ## C7: the final image -/

/-- C7: for every frame submitted by an admitted attempt and every parsed response
with status success and a true acceptance flag, the request carried the encoded frame,
the session becomes accepted, and the stored final image is the server's `final_image`
when the response has a non-empty one and otherwise exactly the submitted frame. -/
theorem C7_final_image (s0 : Session) (v : Frame) (s1 : Session) (p : Pending)
    (s : Session) (status : Nat) (r : Result)
    (hsent : captureAndAnalyze s0 v = Started.sent s1 p)
    (hstatus : r.status = some "success") (hflag : r.accepted = some true) :
    p.request.image = v.imageData ∧
      (captureAndAnalyzeResume p s (FetchOutcome.response true status (Except.ok r))).accepted
        = true ∧
      (∀ img, r.final_image = some img → img ≠ "" →
        (captureAndAnalyzeResume p s
          (FetchOutcome.response true status (Except.ok r))).finalImage = some img) ∧
      ((r.final_image = none ∨ r.final_image = some "") →
        (captureAndAnalyzeResume p s
          (FetchOutcome.response true status (Except.ok r))).finalImage = some v.imageData) := by
  obtain ⟨-, hp, -, -, -⟩ := sent_inv s0 v s1 p hsent
  subst hp
  refine ⟨rfl, ?_, ?_, ?_⟩
  · show (onResult _ s r).accepted = true
    rw [onResult_accepted]
    simp [hstatus, hflag]
  · intro img himg hne
    show (onResult _ s r).finalImage = some img
    unfold onResult
    simp [hstatus, hflag, himg, truthyStr, hne]
  · intro hnone
    show (onResult _ s r).finalImage = some v.imageData
    unfold onResult
    rcases hnone with hn | hn <;> simp [hstatus, hflag, hn, truthyStr]

/-- C7 (witness): the service accepts the sample frame and sends no final image; the
final image is the frame that was submitted. -/
theorem C7_final_image_witness :
    (captureAndAnalyzeResume samplePending (markAnalyzing readySession)
      (FetchOutcome.response true 200 (Except.ok acceptingResult))).finalImage
      = some goodFrame.imageData :=
  (C7_final_image readySession goodFrame (markAnalyzing readySession) samplePending
    (markAnalyzing readySession) 200 acceptingResult
    (captureAndAnalyze_sent readySession goodFrame rfl rfl goodFrame_ok) rfl rfl).2.2.2
    (Or.inl rfl)

/-! ## C8, C9: rejections and service errors -/

theorem resume_ok_eq (p : Pending) (s : Session) (status : Nat) (r : Result) :
    captureAndAnalyzeResume p s (FetchOutcome.response true status (Except.ok r)) =
      finallyBlock p.accepted (onResult p s r) := rfl

theorem finallyBlock_fields (b : Bool) (s : Session) :
    (finallyBlock b s).feedback = s.feedback ∧ (finallyBlock b s).accepted = s.accepted ∧
      (finallyBlock b s).checks = s.checks ∧ (finallyBlock b s).finalImage = s.finalImage ∧
      (finallyBlock b s).cameraReady = s.cameraReady ∧
      (finallyBlock b s).attemptCount = s.attemptCount := by
  unfold finallyBlock
  split <;> exact ⟨rfl, rfl, rfl, rfl, rfl, rfl⟩

theorem onResult_cameraReady (p : Pending) (s : Session) (r : Result) :
    (onResult p s r).cameraReady = s.cameraReady := by
  unfold onResult
  simp only
  split
  · split <;> rfl
  · split <;> rfl

theorem stage_of_flags (s : Session) (ha : s.isAnalyzing = false) (hc : s.accepted = false)
    (hr : s.cameraReady = true) : stage s = Stage.Ready :=
  (stage_eq_Ready s).mpr ⟨hr, ha, hc⟩

/-- C8 (counterexample): a rejection without a checks object leaves `checks` as the
empty object, all three fields absent, which is not face false, eyes false, blur 0; and
a rejection whose checks object has only `face` leaves `eyes` and `blur` absent. -/
theorem C8_omitted_checks_not_defaulted :
    (captureAndAnalyzeResume samplePending (markAnalyzing readySession)
        (FetchOutcome.response true 200 (Except.ok bareRejection))).checks
        = { face := none, eyes := none, blur := none } ∧
      (captureAndAnalyzeResume samplePending (markAnalyzing readySession)
        (FetchOutcome.response true 200 (Except.ok bareRejection))).checks
        ≠ { face := some false, eyes := some false, blur := some 0 } ∧
      (captureAndAnalyzeResume samplePending (markAnalyzing readySession)
        (FetchOutcome.response true 200 (Except.ok partialRejection))).checks
        = { face := some true, eyes := none, blur := none } := by
  have h1 : (captureAndAnalyzeResume samplePending (markAnalyzing readySession)
        (FetchOutcome.response true 200 (Except.ok bareRejection))).checks
        = { face := none, eyes := none, blur := none } := rfl
  refine ⟨h1, ?_, rfl⟩
  rw [h1]
  decide

/-- C8 (amended): for every parsed response that is a rejection (status rejected, or
status success without a true acceptance flag) answering an admitted attempt on a
session that is not accepted, the session ends with `isAnalyzing` false and `accepted`
false (stage Ready when the camera is ready), `attemptCount` one higher and
`finalImage` unchanged, and `checks` is the checks object the server supplied, stored
as received, or the empty object when the server supplied none: omitted fields stay
absent and get no default. -/
theorem C8_rejection (s0 : Session) (v : Frame) (s1 : Session) (p : Pending)
    (s : Session) (status : Nat) (r : Result)
    (hsent : captureAndAnalyze s0 v = Started.sent s1 p)
    (hs : s.accepted = false)
    (hrej : r.status = some "rejected" ∨ (r.status = some "success" ∧ r.accepted ≠ some true)) :
    (captureAndAnalyzeResume p s
        (FetchOutcome.response true status (Except.ok r))).isAnalyzing = false ∧
      (captureAndAnalyzeResume p s
        (FetchOutcome.response true status (Except.ok r))).accepted = false ∧
      (s.cameraReady = true → stage (captureAndAnalyzeResume p s
        (FetchOutcome.response true status (Except.ok r))) = Stage.Ready) ∧
      (captureAndAnalyzeResume p s
        (FetchOutcome.response true status (Except.ok r))).attemptCount = s.attemptCount + 1 ∧
      (captureAndAnalyzeResume p s
        (FetchOutcome.response true status (Except.ok r))).finalImage = s.finalImage ∧
      (∀ c, r.checks = some c → (captureAndAnalyzeResume p s
        (FetchOutcome.response true status (Except.ok r))).checks = c) ∧
      (r.checks = none → (captureAndAnalyzeResume p s
        (FetchOutcome.response true status (Except.ok r))).checks
          = { face := none, eyes := none, blur := none }) := by
  obtain ⟨-, hp, -, -, -⟩ := sent_inv s0 v s1 p hsent
  have hpa : p.accepted = false := by rw [hp]
  have hnotacc : ¬ (r.status = some "success" ∧ r.accepted = some true) := by
    rintro ⟨h1, h2⟩
    rcases hrej with h | h
    · rw [h1] at h
      exact absurd h (by decide)
    · exact h.2 h2
  have hana := resume_isAnalyzing p s (FetchOutcome.response true status (Except.ok r)) hpa
  have hacc : (captureAndAnalyzeResume p s
      (FetchOutcome.response true status (Except.ok r))).accepted = false := by
    rw [resume_accepted p s _ hpa, hs]
    simp [FetchOutcome.accepts, hnotacc]
  have hchecks : (captureAndAnalyzeResume p s
      (FetchOutcome.response true status (Except.ok r))).checks = checksOr r.checks := by
    rw [resume_ok_eq, (finallyBlock_fields _ _).2.2.1]
    unfold onResult
    rcases hrej with h | h
    · simp [h]
    · simp [h.1, h.2]
  have hfinal : (captureAndAnalyzeResume p s
      (FetchOutcome.response true status (Except.ok r))).finalImage = s.finalImage := by
    rw [resume_ok_eq, (finallyBlock_fields _ _).2.2.2.1]
    unfold onResult
    rcases hrej with h | h
    · simp [h]
    · simp [h.1, h.2]
  refine ⟨hana, hacc, ?_, ?_, hfinal, ?_, ?_⟩
  · intro hr
    refine stage_of_flags _ hana hacc ?_
    rw [resume_ok_eq, (finallyBlock_fields _ _).2.2.2.2.1, onResult_cameraReady]
    exact hr
  · rw [resume_attemptCount]
    rfl
  · intro c hc
    rw [hchecks, hc]
    rfl
  · intro hc
    rw [hchecks, hc]
    rfl

/-- C8 (witness): the scenario of the specification.  The camera is ready, the first
attempt is admitted, the server replies with status rejected and checks face true, eyes
false, blur 12: the session is Ready again, `attemptCount` is 1, `checks` as given. -/
theorem C8_rejection_witness :
    stage (captureAndAnalyzeResume samplePending (markAnalyzing readySession)
        (FetchOutcome.response true 200 (Except.ok rejectingResult))) = Stage.Ready ∧
      (captureAndAnalyzeResume samplePending (markAnalyzing readySession)
        (FetchOutcome.response true 200 (Except.ok rejectingResult))).attemptCount = 1 ∧
      (captureAndAnalyzeResume samplePending (markAnalyzing readySession)
        (FetchOutcome.response true 200 (Except.ok rejectingResult))).checks
        = { face := some true, eyes := some false, blur := some 12 } :=
  have h := C8_rejection readySession goodFrame (markAnalyzing readySession) samplePending
    (markAnalyzing readySession) 200 rejectingResult
    (captureAndAnalyze_sent readySession goodFrame rfl rfl goodFrame_ok) rfl (Or.inl rfl)
  ⟨h.2.2.1 rfl, h.2.2.2.1, h.2.2.2.2.2.1 _ rfl⟩

/-- C9: for every parsed response whose status is neither success nor rejected,
answering an admitted attempt on a session that is not accepted, the feedback becomes
the payload's message when it has a non-empty one and "Unknown error" otherwise, the
session ends with `isAnalyzing` false and `accepted` false (stage Ready when the camera
is ready), and `checks` and `finalImage` are unchanged. -/
theorem C9_service_error (s0 : Session) (v : Frame) (s1 : Session) (p : Pending)
    (s : Session) (status : Nat) (r : Result)
    (hsent : captureAndAnalyze s0 v = Started.sent s1 p)
    (hs : s.accepted = false)
    (h1 : r.status ≠ some "success") (h2 : r.status ≠ some "rejected") :
    (∀ m, r.message = some m → m ≠ "" → (captureAndAnalyzeResume p s
        (FetchOutcome.response true status (Except.ok r))).feedback = some m) ∧
      ((r.message = none ∨ r.message = some "") → (captureAndAnalyzeResume p s
        (FetchOutcome.response true status (Except.ok r))).feedback = some "Unknown error") ∧
      (captureAndAnalyzeResume p s
        (FetchOutcome.response true status (Except.ok r))).isAnalyzing = false ∧
      (captureAndAnalyzeResume p s
        (FetchOutcome.response true status (Except.ok r))).accepted = false ∧
      (s.cameraReady = true → stage (captureAndAnalyzeResume p s
        (FetchOutcome.response true status (Except.ok r))) = Stage.Ready) ∧
      (captureAndAnalyzeResume p s
        (FetchOutcome.response true status (Except.ok r))).checks = s.checks ∧
      (captureAndAnalyzeResume p s
        (FetchOutcome.response true status (Except.ok r))).finalImage = s.finalImage := by
  obtain ⟨-, hp, -, -, -⟩ := sent_inv s0 v s1 p hsent
  have hpa : p.accepted = false := by rw [hp]
  have hana := resume_isAnalyzing p s (FetchOutcome.response true status (Except.ok r)) hpa
  have hacc : (captureAndAnalyzeResume p s
      (FetchOutcome.response true status (Except.ok r))).accepted = false := by
    rw [resume_accepted p s _ hpa, hs]
    simp [FetchOutcome.accepts, h1]
  have hfb : (captureAndAnalyzeResume p s
      (FetchOutcome.response true status (Except.ok r))).feedback
      = some (strOr r.message "Unknown error") := by
    rw [resume_ok_eq, (finallyBlock_fields _ _).1]
    unfold onResult
    simp [h1, h2]
  refine ⟨?_, ?_, hana, hacc, ?_, ?_, ?_⟩
  · intro m hm hne
    rw [hfb, hm]
    simp [strOr, hne]
  · intro hm
    rw [hfb]
    rcases hm with hm | hm <;> simp [hm, strOr]
  · intro hr
    refine stage_of_flags _ hana hacc ?_
    rw [resume_ok_eq, (finallyBlock_fields _ _).2.2.2.2.1, onResult_cameraReady]
    exact hr
  · rw [resume_ok_eq, (finallyBlock_fields _ _).2.2.1]
    unfold onResult
    simp [h1, h2]
  · rw [resume_ok_eq, (finallyBlock_fields _ _).2.2.2.1]
    unfold onResult
    simp [h1, h2]

/-- C9 (witness): a reply with status "error" and a message, on the first attempt. -/
theorem C9_service_error_witness :
    (captureAndAnalyzeResume samplePending (markAnalyzing readySession)
        (FetchOutcome.response true 200 (Except.ok serviceErrorResult))).feedback
        = some "No image provided" ∧
      stage (captureAndAnalyzeResume samplePending (markAnalyzing readySession)
        (FetchOutcome.response true 200 (Except.ok serviceErrorResult))) = Stage.Ready :=
  have h := C9_service_error readySession goodFrame (markAnalyzing readySession) samplePending
    (markAnalyzing readySession) 200 serviceErrorResult
    (captureAndAnalyze_sent readySession goodFrame rfl rfl goodFrame_ok) rfl
    (by decide) (by decide)
  ⟨h.1 _ rfl (by decide), h.2.2.2.2.1 rfl⟩

/-! ## C10: the three transport failures -/

theorem ite_ne_of_ne {q : Prop} [Decidable q] {a b c : Char} (ha : a ≠ c) (hb : b ≠ c) :
    (if q then a else b) ≠ c := by
  split
  · exact ha
  · exact hb

/-- No digit character is a capital F. -/
theorem digitChar_ne_F (n : Nat) : Nat.digitChar n ≠ 'F' := by
  unfold Nat.digitChar
  repeat' apply ite_ne_of_ne
  all_goals decide

theorem toDigitsCore_ne_F (base : Nat) :
    ∀ (fuel n : Nat) (ds : List Char), (∀ c ∈ ds, c ≠ 'F') →
      ∀ c ∈ Nat.toDigitsCore base fuel n ds, c ≠ 'F' := by
  intro fuel
  induction fuel with
  | zero =>
    intro n ds h
    simpa [Nat.toDigitsCore] using h
  | succ k ih =>
    intro n ds h
    have hd : ∀ c ∈ Nat.digitChar (n % base) :: ds, c ≠ 'F' := by
      intro c hc
      rcases List.mem_cons.mp hc with hc | hc
      · rw [hc]
        exact digitChar_ne_F _
      · exact h c hc
    unfold Nat.toDigitsCore
    simp only
    split
    · exact hd
    · exact ih _ _ hd

/-- The decimal text of a number has no capital F. -/
theorem toString_ne_F (n : Nat) : ∀ c ∈ (toString n).data, c ≠ 'F' := by
  show ∀ c ∈ Nat.toDigitsCore 10 (n + 1) n [], c ≠ 'F'
  exact toDigitsCore_ne_F 10 _ _ _ (by simp)

/-- A string that includes another one has all its characters. -/
theorem includesChars_mem (needle : List Char) :
    ∀ hay : List Char, includesChars needle hay = true → ∀ c ∈ needle, c ∈ hay := by
  intro hay
  induction hay with
  | nil =>
    intro h c hc
    simp only [includesChars] at h
    exact (List.isPrefixOf_iff_prefix.mp h).subset hc
  | cons a hay ih =>
    intro h c hc
    simp only [includesChars, Bool.or_eq_true] at h
    rcases h with h | h
    · exact (List.isPrefixOf_iff_prefix.mp h).subset hc
    · exact List.mem_cons_of_mem _ (ih h c hc)

/-- The message of the error thrown on line 226 never includes "Failed to fetch". -/
theorem httpError_not_fetch (status : Nat) :
    includes ("HTTP error! status: " ++ toString status) "Failed to fetch" = false := by
  cases hinc : includes ("HTTP error! status: " ++ toString status) "Failed to fetch" with
  | false => rfl
  | true =>
    exfalso
    have hmem := includesChars_mem _ _ hinc 'F' (by decide)
    rw [String.data_append] at hmem
    rcases List.mem_append.mp hmem with h | h
    · exact absurd h (by decide)
    · exact toString_ne_F status 'F' h rfl

/-- A message of the last branch of the `catch` block differs from every string that
does not start with a capital E. -/
theorem error_msg_ne (m t : String) (h : t.data.head? ≠ some 'E') : "Error: " ++ m ≠ t := by
  intro heq
  apply h
  rw [← heq, String.data_append]
  rfl

theorem catchBlock_abort (s : Session) (e : JsError) (h : e.name = "AbortError") :
    catchBlock s e = { s with feedback := some timeoutMessage } := by
  unfold catchBlock
  rw [if_pos h]
  rfl

theorem catchBlock_fetch (s : Session) (e : JsError) (h : e.name ≠ "AbortError")
    (hm : includes e.message "Failed to fetch" = true) :
    catchBlock s e = { s with feedback := some unreachableMessage } := by
  unfold catchBlock
  rw [if_neg h, if_pos hm]
  rfl

theorem catchBlock_http (s : Session) (status : Nat) :
    catchBlock s { name := "Error", message := "HTTP error! status: " ++ toString status } =
      { s with feedback := some ("Error: " ++ ("HTTP error! status: " ++ toString status)) } := by
  have hname : ("Error" : String) ≠ "AbortError" := by decide
  unfold catchBlock
  rw [if_neg hname, httpError_not_fetch]
  rfl

/-- C10: for an admitted attempt whose request fails in transport, the timeout (the
abort of the request), the connection failure (an error whose message includes "Failed
to fetch") and the unexpected HTTP status (a response that is not ok, whatever its
status code and body) each set their own feedback message, the three messages are
pairwise different, and all three make the same transition: `isAnalyzing` becomes
false and every other field, in particular `accepted`, `checks`, `finalImage`, keeps
its value, so that a ready, not accepted session is back in Ready. -/
theorem C10_transport_failures (s0 : Session) (v : Frame) (s1 : Session) (p : Pending)
    (s : Session) (e1 e2 : JsError) (status : Nat) (body : Except JsError Result)
    (hsent : captureAndAnalyze s0 v = Started.sent s1 p)
    (h1 : e1.name = "AbortError")
    (h2 : e2.name ≠ "AbortError") (h2m : includes e2.message "Failed to fetch" = true) :
    captureAndAnalyzeResume p s (FetchOutcome.threw e1) =
        { s with isAnalyzing := false, feedback := some timeoutMessage } ∧
      captureAndAnalyzeResume p s (FetchOutcome.threw e2) =
        { s with isAnalyzing := false, feedback := some unreachableMessage } ∧
      captureAndAnalyzeResume p s (FetchOutcome.response false status body) =
        { s with isAnalyzing := false,
                 feedback := some ("Error: HTTP error! status: " ++ toString status) } ∧
      timeoutMessage ≠ unreachableMessage ∧
      "Error: HTTP error! status: " ++ toString status ≠ timeoutMessage ∧
      "Error: HTTP error! status: " ++ toString status ≠ unreachableMessage ∧
      (s.cameraReady = true → s.accepted = false →
        stage (captureAndAnalyzeResume p s (FetchOutcome.threw e1)) = Stage.Ready ∧
        stage (captureAndAnalyzeResume p s (FetchOutcome.threw e2)) = Stage.Ready ∧
        stage (captureAndAnalyzeResume p s (FetchOutcome.response false status body))
          = Stage.Ready) := by
  obtain ⟨-, hp, -, -, -⟩ := sent_inv s0 v s1 p hsent
  have hpa : p.accepted = false := by rw [hp]
  have happ : "Error: HTTP error! status: " ++ toString status =
      "Error: " ++ ("HTTP error! status: " ++ toString status) := by
    rw [← String.append_assoc]
    rfl
  have r1 : captureAndAnalyzeResume p s (FetchOutcome.threw e1) =
      { s with isAnalyzing := false, feedback := some timeoutMessage } := by
    show finallyBlock p.accepted (catchBlock s e1) = _
    rw [hpa, finallyBlock_false, catchBlock_abort s e1 h1]
  have r2 : captureAndAnalyzeResume p s (FetchOutcome.threw e2) =
      { s with isAnalyzing := false, feedback := some unreachableMessage } := by
    show finallyBlock p.accepted (catchBlock s e2) = _
    rw [hpa, finallyBlock_false, catchBlock_fetch s e2 h2 h2m]
  have r3 : captureAndAnalyzeResume p s (FetchOutcome.response false status body) =
      { s with isAnalyzing := false,
               feedback := some ("Error: HTTP error! status: " ++ toString status) } := by
    show finallyBlock p.accepted (catchBlock s
      { name := "Error", message := "HTTP error! status: " ++ toString status }) = _
    rw [hpa, finallyBlock_false, catchBlock_http, happ]
  refine ⟨r1, r2, r3, by decide, ?_, ?_, ?_⟩
  · rw [happ]
    exact error_msg_ne _ _ (by decide)
  · rw [happ]
    exact error_msg_ne _ _ (by decide)
  · intro hr hc
    rw [r1, r2, r3]
    exact ⟨stage_of_flags _ rfl hc hr, stage_of_flags _ rfl hc hr, stage_of_flags _ rfl hc hr⟩

/-- C10 (witness): the first attempt of the ready session ends in a timeout, in an
unreachable service, or in an HTTP 500: three different messages, the session back in
Ready each time. -/
theorem C10_transport_failures_witness :
    (captureAndAnalyzeResume samplePending (markAnalyzing readySession)
        (FetchOutcome.threw timeoutError)).feedback = some timeoutMessage ∧
      (captureAndAnalyzeResume samplePending (markAnalyzing readySession)
        (FetchOutcome.threw unreachableError)).feedback = some unreachableMessage ∧
      (captureAndAnalyzeResume samplePending (markAnalyzing readySession)
        (FetchOutcome.response false 500 (Except.ok rejectingResult))).feedback
        = some "Error: HTTP error! status: 500" ∧
      stage (captureAndAnalyzeResume samplePending (markAnalyzing readySession)
        (FetchOutcome.response false 500 (Except.ok rejectingResult))) = Stage.Ready :=
  have h := C10_transport_failures readySession goodFrame (markAnalyzing readySession)
    samplePending (markAnalyzing readySession) timeoutError unreachableError 500
    (Except.ok rejectingResult)
    (captureAndAnalyze_sent readySession goodFrame rfl rfl goodFrame_ok)
    rfl (by decide) (by decide)
  ⟨by rw [h.1], by rw [h.2.1], by rw [h.2.2.1]; decide, (h.2.2.2.2.2.2 rfl rfl).2.2⟩

/-! ## C11: the countdown -/

theorem CAPTURE_INTERVAL_SEC_eq : CAPTURE_INTERVAL_SEC = 7 := rfl

theorem countdownUpdater_range (prev : Nat) :
    1 ≤ countdownUpdater prev ∧
      (prev ≤ CAPTURE_INTERVAL_SEC → countdownUpdater prev ≤ CAPTURE_INTERVAL_SEC) ∧
      (1 < prev → countdownUpdater prev = prev - 1) ∧
      (prev ≤ 1 → countdownUpdater prev = CAPTURE_INTERVAL_SEC) := by
  unfold countdownUpdater
  rw [CAPTURE_INTERVAL_SEC_eq]
  by_cases h : prev ≤ 1
  · rw [if_pos h]
    refine ⟨by omega, fun _ => le_refl _, fun h1 => by omega, fun _ => rfl⟩
  · rw [if_neg h]
    refine ⟨by omega, fun h7 => by omega, fun _ => rfl, fun h1 => absurd h1 h⟩

theorem countdownTimer_of_Ready (s : Session) (h : stage s = Stage.Ready) :
    countdownTimer s = { s with countdown := countdownUpdater s.countdown } := by
  obtain ⟨hr, ha, hc⟩ := (stage_eq_Ready s).mp h
  unfold countdownTimer
  simp [hr, ha, hc, countdownUpdater]

theorem countdownTimer_of_not_Ready (s : Session) (h : stage s ≠ Stage.Ready) :
    countdownTimer s = s := by
  have h2 : ¬ (s.cameraReady = true ∧ s.isAnalyzing = false ∧ s.accepted = false) :=
    fun hc => h ((stage_eq_Ready s).mpr hc)
  unfold countdownTimer
  cases hr : s.cameraReady <;> cases ha : s.isAnalyzing <;> cases hc : s.accepted <;>
    simp_all

theorem CountdownInv_countdownTimer (s : Session) (h : CountdownInv s) :
    CountdownInv (countdownTimer s) := by
  by_cases hs : stage s = Stage.Ready
  · rw [countdownTimer_of_Ready s hs]
    exact (countdownUpdater_range s.countdown).2.1 h
  · rw [countdownTimer_of_not_Ready s hs]
    exact h

theorem finallyBlock_countdown (b : Bool) (s : Session) :
    (finallyBlock b s).countdown = s.countdown := by
  unfold finallyBlock
  split <;> rfl

theorem catchBlock_countdown (s : Session) (e : JsError) :
    (catchBlock s e).countdown = s.countdown := by
  unfold catchBlock
  split
  · rfl
  · split <;> rfl

theorem onResult_countdown (p : Pending) (s : Session) (r : Result) :
    (onResult p s r).countdown = s.countdown := by
  unfold onResult
  simp only
  split
  · split <;> rfl
  · split <;> rfl

theorem resume_countdown (p : Pending) (s : Session) (o : FetchOutcome) :
    (captureAndAnalyzeResume p s o).countdown = s.countdown := by
  cases o with
  | threw e =>
    simp [captureAndAnalyzeResume, finallyBlock_countdown, catchBlock_countdown]
  | response ok status body =>
    cases ok with
    | false => simp [captureAndAnalyzeResume, finallyBlock_countdown, catchBlock_countdown]
    | true =>
      cases body with
      | error e =>
        simp [captureAndAnalyzeResume, finallyBlock_countdown, catchBlock_countdown]
      | ok r => simp [captureAndAnalyzeResume, finallyBlock_countdown, onResult_countdown]

/-- An admitted attempt leaves the countdown at the full interval, whether it issues
its request or is ended by a frame check. -/
theorem admitted_countdown (s : Session) (v : Frame)
    (h : (captureAndAnalyze s v).admitted = true) :
    ((captureAndAnalyze s v).session s).countdown = CAPTURE_INTERVAL_SEC := by
  rcases captureAndAnalyze_cases s v with c | c | c
  · rw [c.1] at h
    cases h
  · obtain ⟨-, -, -, msg, hm⟩ := c
    rw [hm]
    rfl
  · rw [c.2.2.2]
    rfl

theorem CountdownInv_start (w : World) (c : Session) (v : Frame)
    (h : CountdownInv w.session) :
    CountdownInv (w.start (captureAndAnalyzeFrom c w.session v)).session := by
  rcases start_session_cases w c v with h1 | ⟨msg, h1⟩ | h1
  · rw [h1]
    exact h
  · rw [h1]
    exact le_refl _
  · rw [h1]
    exact le_refl _

theorem CountdownInv_step (w : World) (e : Event) (h : CountdownInv w.session) :
    CountdownInv (step w e).session := by
  cases e with
  | cameraLoaded width height => exact h
  | cameraFailed => exact h
  | countdownTick =>
    show CountdownInv (countdownTimerFrom w.timer w.session)
    rcases countdownTimerFrom_cases w.timer w.session with h1 | h1
    · rw [h1]
      exact h
    · rw [h1]
      exact (countdownUpdater_range w.session.countdown).2.1 h
  | captureTick v =>
    show CountdownInv (w.start (captureTimerFrom w.timer w.session v)).session
    rw [captureTimerFrom_eq]
    split
    · exact CountdownInv_start w _ v h
    · exact h
  | manualCapture v =>
    show CountdownInv (w.start (manualCaptureFrom w.rendered w.session v)).session
    rw [manualCaptureFrom_eq]
    exact CountdownInv_start w _ v h
  | fetchDone i o =>
    simp only [step]
    split
    · show (captureAndAnalyzeResume _ w.session o).countdown ≤ CAPTURE_INTERVAL_SEC
      rw [resume_countdown]
      exact h
    · exact h
  | switchCamera deviceId =>
    simp only [step]
    split
    · exact h
    · exact h
  | switchLoaded width height => exact h
  | switchFailed => exact h
  | reset streamPresent =>
    simp only [step]
    split
    · exact le_refl _
    · exact h
  | render => exact h

/-- C11: in every state reachable from the mounted component the countdown lies in
the range from 0 to the interval, which is 7 seconds.  The 1-second tick acts only in
stage Ready, where it replaces the countdown `prev` by `prev - 1` when `prev` is above
1 and by the full interval otherwise, so that a value in the range is mapped to a value
in the range and never below 1.  Every admitted capture attempt, from the timer or the
button, and every reset from the accepted state leave the countdown at exactly the full
interval. -/
theorem C11_countdown_range (es : List Event) :
    (0 ≤ (run initialWorld es).session.countdown ∧
        (run initialWorld es).session.countdown ≤ CAPTURE_INTERVAL_SEC) ∧
      CAPTURE_INTERVAL_SEC = 7 ∧
      (∀ s : Session, stage s = Stage.Ready →
        countdownTimer s = { s with countdown := countdownUpdater s.countdown }) ∧
      (∀ s : Session, stage s ≠ Stage.Ready → countdownTimer s = s) ∧
      (∀ prev : Nat, prev ≤ CAPTURE_INTERVAL_SEC →
        countdownUpdater prev ≤ CAPTURE_INTERVAL_SEC ∧ 1 ≤ countdownUpdater prev ∧
        (1 < prev → countdownUpdater prev = prev - 1) ∧
        (prev ≤ 1 → countdownUpdater prev = CAPTURE_INTERVAL_SEC)) ∧
      (∀ (s : Session) (v : Frame), (captureTimer s v).admitted = true →
        ((captureTimer s v).session s).countdown = CAPTURE_INTERVAL_SEC) ∧
      (∀ (s : Session) (v : Frame), (manualCapture s v).admitted = true →
        ((manualCapture s v).session s).countdown = CAPTURE_INTERVAL_SEC) ∧
      (∀ (w : World) (streamPresent : Bool), w.session.accepted = true →
        (step w (Event.reset streamPresent)).session.countdown = CAPTURE_INTERVAL_SEC) := by
  have hinv := run_induction (fun w => CountdownInv w.session) CountdownInv_step es
    initialWorld (le_refl _)
  refine ⟨⟨Nat.zero_le _, hinv⟩, rfl, countdownTimer_of_Ready, countdownTimer_of_not_Ready,
    ?_, ?_, ?_, ?_⟩
  · intro prev hp
    have h := countdownUpdater_range prev
    exact ⟨h.2.1 hp, h.1, h.2.2.1, h.2.2.2⟩
  · intro s v hadm
    rw [captureTimer_eq] at hadm ⊢
    by_cases hr : s.cameraReady = true
    · rw [if_pos hr] at hadm ⊢
      exact admitted_countdown s v hadm
    · rw [if_neg hr] at hadm
      cases hadm
  · intro s v hadm
    rw [manualCapture_eq] at hadm ⊢
    exact admitted_countdown s v hadm
  · intro w streamPresent hacc
    rw [step_reset_session w streamPresent hacc]
    rfl

/-- C11 (witness): the camera loads, the countdown ticks seven times, back to 7; the
tick takes 1 to 7 and 5 to 4. -/
theorem C11_countdown_range_witness :
    (run initialWorld [Event.cameraLoaded 1280 720, Event.countdownTick, Event.countdownTick,
        Event.countdownTick]).session.countdown ≤ 7 ∧
      countdownUpdater 1 = 7 ∧ countdownUpdater 5 = 4 :=
  have h := C11_countdown_range [Event.cameraLoaded 1280 720, Event.countdownTick,
    Event.countdownTick, Event.countdownTick]
  ⟨h.1.2, (h.2.2.2.2.1 1 (by decide)).2.2.2 (by decide),
    (h.2.2.2.2.1 5 (by decide)).2.2.1 (by decide)⟩

/-! ## C12: frames that are not ready -/

theorem stage_congr (s t : Session) (ha : t.isAnalyzing = s.isAnalyzing)
    (hc : t.accepted = s.accepted) (hr : t.cameraReady = s.cameraReady) :
    stage t = stage s := by
  unfold stage
  rw [ha, hc, hr]

theorem Frame.ok_false_of (v : Frame)
    (h : v.videoPresent = false ∨ v.canvasPresent = false ∨
      v.readyState ≠ HAVE_ENOUGH_DATA ∨ v.videoWidth = 0 ∨ v.videoHeight = 0 ∨
      v.imageData.length < 1000) : v.ok = false := by
  unfold Frame.ok
  rcases h with h | h | h | h | h | h
  · simp [h]
  · simp [h]
  · simp [h]
  · simp [h]
  · simp [h]
  · have h2 : ¬ (1000 ≤ v.imageData.length) := by omega
    simp [h2]

/-- C12: when an attempt is admitted (the session is neither analyzing nor accepted)
and the frame cannot be grabbed (an element is not mounted, the video has not buffered
a full frame, the width or the height is zero, or the encoded image is shorter than
1000 characters), the attempt, started by the button or by the capture timer, returns
before any request is issued: nothing is in flight that was not before, `attemptCount`,
`checks`, `accepted` and `finalImage` are unchanged, `isAnalyzing` is false again, the
stage is the one before the attempt, and the next capture request is admitted under
the same conditions as before. -/
theorem C12_frame_not_ready (w : World) (v : Frame) (e : Event)
    (he : e = Event.manualCapture v ∨ e = Event.captureTick v)
    (ha : w.session.isAnalyzing = false) (hc : w.session.accepted = false)
    (hbad : v.videoPresent = false ∨ v.canvasPresent = false ∨
      v.readyState ≠ HAVE_ENOUGH_DATA ∨ v.videoWidth = 0 ∨ v.videoHeight = 0 ∨
      v.imageData.length < 1000) :
    (manualCapture w.session v).admitted = true ∧
      (∃ s1, manualCapture w.session v = Started.abandoned s1) ∧
      ((captureTimer w.session v).admitted = true ↔ w.session.cameraReady = true) ∧
      (w.session.cameraReady = true → ∃ s1, captureTimer w.session v = Started.abandoned s1) ∧
      (step w e).inFlight = w.inFlight ∧
      (step w e).session.attemptCount = w.session.attemptCount ∧
      (step w e).session.checks = w.session.checks ∧
      (step w e).session.accepted = w.session.accepted ∧
      (step w e).session.finalImage = w.session.finalImage ∧
      (step w e).session.isAnalyzing = false ∧
      stage (step w e).session = stage w.session ∧
      (∀ v2, (manualCapture (step w e).session v2).admitted = true) ∧
      (∀ v2, (captureTimer (step w e).session v2).admitted =
        (captureTimer w.session v2).admitted) := by
  have hv := Frame.ok_false_of v hbad
  rcases captureAndAnalyze_cases w.session v with c | c | c
  · rcases c.2 with h | h
    · rw [ha] at h; cases h
    · rw [hc] at h; cases h
  · obtain ⟨-, -, -, msg, hm⟩ := c
    have hman : manualCapture w.session v = Started.abandoned
        { markAnalyzing w.session with isAnalyzing := false, feedback := some msg } := by
      rw [manualCapture_eq, hm]
    have htadm : (captureTimer w.session v).admitted = true ↔ w.session.cameraReady = true := by
      rw [captureTimer_admitted]
      exact ⟨fun h => h.1, fun h => ⟨h, ha, hc⟩⟩
    have htab : w.session.cameraReady = true →
        ∃ s1, captureTimer w.session v = Started.abandoned s1 := by
      intro hr
      rw [captureTimer_eq, if_pos hr, hm]
      exact ⟨_, rfl⟩
    -- the world after the event: an attempt ended by a frame check, or the world before
    have hfrom : ∀ c : Session,
        (∃ m, w.start (captureAndAnalyzeFrom c w.session v) = { w with session :=
          { markAnalyzing w.session with isAnalyzing := false, feedback := some m } }) ∨
        w.start (captureAndAnalyzeFrom c w.session v) = w := by
      intro c
      rcases captureAndAnalyzeFrom_cases c w.session v with d | d | d
      · right
        rw [d.1]
        rfl
      · obtain ⟨-, -, -, m, hd⟩ := d
        left
        exact ⟨m, by rw [hd]; rfl⟩
      · rw [hv] at d
        exact absurd d.2.2.1 (by decide)
    have hstep : (∃ m, step w e = { w with session :=
          { markAnalyzing w.session with isAnalyzing := false, feedback := some m } }) ∨
        step w e = w := by
      rcases he with he | he
      · rw [he]
        show (∃ m, w.start (manualCaptureFrom w.rendered w.session v) = _) ∨
          w.start (manualCaptureFrom w.rendered w.session v) = _
        rw [manualCaptureFrom_eq]
        exact hfrom _
      · rw [he]
        show (∃ m, w.start (captureTimerFrom w.timer w.session v) = _) ∨
          w.start (captureTimerFrom w.timer w.session v) = _
        rw [captureTimerFrom_eq]
        by_cases hr : w.timer.cameraReady = true
        · rw [if_pos hr]
          exact hfrom _
        · right
          rw [if_neg hr]
          rfl
    have hfacts : ∀ u : World, u.inFlight = w.inFlight →
        u.session.attemptCount = w.session.attemptCount → u.session.checks = w.session.checks →
        u.session.accepted = w.session.accepted → u.session.finalImage = w.session.finalImage →
        u.session.isAnalyzing = false → u.session.cameraReady = w.session.cameraReady →
        (u.inFlight = w.inFlight ∧
          u.session.attemptCount = w.session.attemptCount ∧
          u.session.checks = w.session.checks ∧
          u.session.accepted = w.session.accepted ∧
          u.session.finalImage = w.session.finalImage ∧
          u.session.isAnalyzing = false ∧
          stage u.session = stage w.session ∧
          (∀ v2, (manualCapture u.session v2).admitted = true) ∧
          (∀ v2, (captureTimer u.session v2).admitted = (captureTimer w.session v2).admitted)) := by
      intro u h1 h2 h3 h4 h5 h6 h7
      refine ⟨h1, h2, h3, h4, h5, h6, ?_, ?_, ?_⟩
      · exact stage_congr _ _ (by rw [h6, ha]) h4 h7
      · intro v2
        rw [manualCapture_eq, captureAndAnalyze_admitted]
        exact ⟨h6, by rw [h4]; exact hc⟩
      · intro v2
        rw [Bool.eq_iff_iff, captureTimer_admitted, captureTimer_admitted, h6, h4, h7, ha]
    refine ⟨by rw [hman]; rfl, ⟨_, hman⟩, htadm, htab, ?_⟩
    rcases hstep with ⟨m, hs⟩ | hs
    · rw [hs]
      exact hfacts _ rfl rfl rfl rfl rfl rfl rfl
    · rw [hs]
      exact hfacts w rfl rfl rfl rfl rfl ha rfl
  · rw [hv] at c
    exact absurd c.2.2.1 (by decide)

/-- C12 (witness): "Capture Now" on the ready session while the video element has not
buffered a frame: no request, the counter stays at 0, the stage stays Ready. -/
theorem C12_frame_not_ready_witness :
    (step { session := readySession, inFlight := [] } (Event.manualCapture blankFrame)).inFlight
        = [] ∧
      (step { session := readySession, inFlight := [] }
        (Event.manualCapture blankFrame)).session.attemptCount = 0 ∧
      stage (step { session := readySession, inFlight := [] }
        (Event.manualCapture blankFrame)).session = Stage.Ready :=
  have h := C12_frame_not_ready { session := readySession, inFlight := [] } blankFrame
    (Event.manualCapture blankFrame) (Or.inl rfl)
    rfl rfl (Or.inr (Or.inr (Or.inl (by decide))))
  ⟨h.2.2.2.2.1, h.2.2.2.2.2.1, h.2.2.2.2.2.2.2.2.2.2.1⟩

/-! ## C13: capture requests while an analysis is outstanding -/

/-- C13 (the code at the failing input): after the camera has loaded, React has
rendered and the capture interval has fired on a playing stream, an analysis is
outstanding and `isAnalyzing` is true in the current cells.  A press of "Capture Now"
before the next render reads `isAnalyzing` false from the render on screen: the request
is not dropped, it passes both guards and is sent, and the state changes (a second
request is in flight).  In the older controller the interval callback keeps the cells
of the render in which the camera became ready, because its effect depends on
`cameraReady` and `accepted` only: while an analysis is outstanding the guard of line 67
lets the next tick through and a second request is sent. -/
theorem C13_request_not_dropped :
    racingWorld.session.isAnalyzing = true ∧
      racingWorld.inFlight = [samplePending] ∧
      manualCaptureFrom racingWorld.rendered racingWorld.session goodFrame =
        Started.sent (markAnalyzing (markAnalyzing readySession)) samplePending ∧
      step racingWorld (Event.manualCapture goodFrame) ≠ racingWorld ∧
      Legacy.analyzingSession.isAnalyzing = true ∧
      Legacy.captureAndAnalyze Legacy.readySession Legacy.analyzingSession goodFrame =
        Legacy.Started.sent Legacy.analyzingSession goodFrame.imageData := by
  refine ⟨rfl, rfl, ?_, ?_, rfl, ?_⟩
  · have h : manualCaptureFrom readySession (markAnalyzing readySession) goodFrame =
        Started.sent (markAnalyzing (markAnalyzing readySession))
          { imageData := goodFrame.imageData, accepted := false,
            attemptCount := readySession.attemptCount } := by
      rw [manualCaptureFrom_eq,
        captureAndAnalyzeFrom_sent readySession (markAnalyzing readySession) goodFrame rfl rfl
          goodFrame_ok]
    exact h
  · intro h
    have h2 : (step racingWorld (Event.manualCapture goodFrame)).inFlight.length =
        racingWorld.inFlight.length := by rw [h]
    rw [step_racingWorld_manualCapture] at h2
    exact absurd h2 (by decide)
  · rfl

/-! ## C14: the accepted attempt and the `finally` block -/

/-- C14 (the code at the failing input): the ready session submits a good frame and
the service answers with status success and a true acceptance flag.  The call that
runs was created by a render with `accepted` false, its `finally` block reads that
value, and so after the attempt has completed `accepted` is true and `isAnalyzing` is
false, not true. -/
theorem C14_accepted_clears_isAnalyzing :
    captureAndAnalyze readySession goodFrame
        = Started.sent (markAnalyzing readySession) samplePending ∧
      samplePending.accepted = false ∧
      (markAnalyzing readySession).isAnalyzing = true ∧
      (captureAndAnalyzeResume samplePending (markAnalyzing readySession)
        (FetchOutcome.response true 200 (Except.ok acceptingResult))).accepted = true ∧
      (captureAndAnalyzeResume samplePending (markAnalyzing readySession)
        (FetchOutcome.response true 200 (Except.ok acceptingResult))).isAnalyzing = false :=
  ⟨captureAndAnalyze_sent readySession goodFrame rfl rfl goodFrame_ok, rfl, rfl, rfl, rfl⟩

end AIPhotographer
